import Mathlib

/-!
# wtk: window lifecycle, window setters and the X11 event pump

A shallow embedding of `src/wtk/wtk.c` (the common facade and the X11 backend).

Conventions of the embedding

* C `int` values are `Int`; `unsigned int` values (modifier state, key and button codes,
  X resource ids) are `Nat`.  Conversions that can wrap are written out (`toInt32`).
  `G.num_windows` is an `Int`; the model does not wrap it at `2^31`.
* A `WtkWindow *` is an address (`Nat`); a nullable pointer is an `Option`.  The memory of
  the process is `mem : Nat → WtkWindow` together with the list `live` of blocks that were
  returned by `calloc` and not yet passed to `free`.  Reading through a pointer that is not
  live is undefined in C; the model then follows the visible code on the stale contents.
* Results of the native libraries (Xlib, GLX, libc) are inputs, gathered in `Native`.
* Every call into the backend and every invocation of an event callback is appended to
  `trace`; a callback entry carries the program state that the callee can observe.
* Only the X11 backend is embedded: it is the one whose code is self-contained in
  `wtk.c` (window lookup by `XFindContext`, event translation, event pump).
* User callbacks are foreign code: `Env.run` gives their effect on the program state.
-/

namespace Wtk

/-! ## Data model -/

/-- Event kinds (`WTK_EVENTTYPE_*` in `wtk.c`), one constructor per enumerator of
`WtkEventType` in `wtk.h`, in the order of that enumeration. -/
inductive WtkEventType
  | WTK_EVENTTYPE_KEYUP
  | WTK_EVENTTYPE_KEYDOWN
  | WTK_EVENTTYPE_MOUSEUP
  | WTK_EVENTTYPE_MOUSEDOWN
  | WTK_EVENTTYPE_MOUSEENTER
  | WTK_EVENTTYPE_MOUSELEAVE
  | WTK_EVENTTYPE_MOUSESCROLL
  | WTK_EVENTTYPE_MOUSEMOTION
  | WTK_EVENTTYPE_WINDOWCLOSE
  | WTK_EVENTTYPE_WINDOWRESIZE
  | WTK_EVENTTYPE_WINDOWFOCUSIN
  | WTK_EVENTTYPE_WINDOWFOCUSOUT
  deriving DecidableEq, Repr

open WtkEventType

/-- A non-null event callback: the library's own `defaultEventCallback`, or a function of
the caller, named by a number. -/
inductive Callback
  | defaultEventCallback
  | user (fn : Nat)
  deriving DecidableEq, Repr

/-- A pair of coordinates (`location` and `delta` of an event). -/
structure Vec2 where
  x : Int
  y : Int
  deriving DecidableEq, Repr

/-- The event record built by `postEvent`: the fields of `WtkEvent` that `wtk.c` writes.
The declaration of this record is not among the sources; `keyCode` and `buttonNumber` are
taken to be `int`, and the coordinates of `location` and `delta` are integers (X11 window
coordinates are 16-bit, so sums and differences of them are exact in any C number type). -/
structure WtkEvent where
  type : WtkEventType
  keyCode : Int
  modifiers : Nat
  buttonNumber : Int
  location : Vec2
  delta : Vec2
  deriving DecidableEq, Repr

/-- The window description `WtkWindowDesc`; `callback` and `title` are nullable pointers. -/
structure WtkWindowDesc where
  callback : Option Callback
  title : Option String
  x : Int
  y : Int
  w : Int
  h : Int
  deriving DecidableEq, Repr

/-- The X11 variant of `struct WtkWindow`: description, close flag, X window id and GLX
context handle. -/
structure WtkWindow where
  desc : WtkWindowDesc
  closed : Int
  window : Nat
  context : Nat
  deriving DecidableEq, Repr

/-- A block as `calloc` returns it: every field zero or null. -/
def WtkWindow.zero : WtkWindow :=
  { desc := { callback := none, title := none, x := 0, y := 0, w := 0, h := 0 },
    closed := 0, window := 0, context := 0 }

/-- The fields of the `XEvent` union that `pollEvents` and `postEvent` read.
`state`, `x`, `y` are the members of that name of `xkey`, `xbutton` and `xmotion`;
`detail` is `xkey.keycode` resp. `xbutton.button`; `cx`, `cy`, `width`, `height` are the
members `x`, `y`, `width`, `height` of `xconfigure`; `data0` is `xclient.data.l[0]`. -/
structure XEvent where
  type : Nat
  window : Nat
  state : Nat
  detail : Nat
  x : Int
  y : Int
  cx : Int
  cy : Int
  width : Int
  height : Int
  data0 : Nat
  deriving DecidableEq, Repr

/-- The program state without the call log: the global `G` (`num_windows` and the members
of `G.x11` that the embedded code reads back), the heap of `WtkWindow` blocks, the
association table behind `XSaveContext`/`XFindContext`, and the function-local static
`previousEvent` of `postEvent`. -/
structure World where
  num_windows : Int
  display : Nat
  colormap : Nat
  wm_delwin : Nat
  mem : Nat → WtkWindow
  live : List Nat
  brk : Nat
  xcontext : Nat → Option Nat
  previousEvent : WtkEvent

/-- One observable call: a backend entry point, or an event callback together with the
program state at the moment of the call. -/
inductive Call
  | init (ok : Bool)
  | quit
  | createWindow (window : Nat) (ok : Bool)
  | deleteWindow (window : Nat)
  | setWindowOrigin (window : Nat) (x y : Int)
  | setWindowSize (window : Nat) (w h : Nat)
  | setWindowTitle (window : Nat) (title : String)
  | callback (fn : Option Callback) (window : Nat) (event : WtkEvent) (seen : World)

/-- The program state together with the log of calls made so far (oldest first). -/
structure Sys extends World where
  trace : List Call

/-- Results of the native calls made during one `WtkCreateWindow`.  A zero stands for a
null pointer, `None` or a zero status. -/
structure Native where
  XOpenDisplay : Nat
  XCreateColormap : Nat
  XInternAtom : Nat
  calloc : Bool
  XCreateWindow : Nat
  XSetWMProtocols : Bool
  glXChooseFBConfig : Bool
  glXCreateContext : Nat
  deriving DecidableEq, Repr

/-- Constants that `wtk.c` names and `include/wtk/wtk.h` does not declare. -/
structure MissingConsts where
  WTK_KEY_PAGEUP : Int
  WTK_KEY_PAGEDOWN : Int
  WTK_KEY_HOME : Int
  WTK_KEY_END : Int
  WTK_KEY_INSERT : Int
  WTK_KEY_DELETE : Int
  WTK_MOD_CAPSLOCK : Nat
  deriving DecidableEq, Repr

/-- What the embedded code takes from outside the repository: the missing constants,
Xlib's keyboard mapping `XkbKeycodeToKeysym (keycode, group, level)`, and the effect of
the caller's callback `fn` when invoked with a window and an event. -/
structure Env where
  K : MissingConsts
  XkbKeycodeToKeysym : Nat → Nat → Nat → Nat
  run : Nat → Nat → WtkEvent → World → World

/-- The state at process start: `G = {0}`, nothing allocated, `previousEvent = {0}`. -/
def Sys.initial : Sys :=
  { num_windows := 0, display := 0, colormap := 0, wm_delwin := 0,
    mem := fun _ => WtkWindow.zero, live := [], brk := 1,
    xcontext := fun _ => none,
    previousEvent :=
      { type := WTK_EVENTTYPE_KEYUP, keyCode := 0, modifiers := 0, buttonNumber := 0,
        location := { x := 0, y := 0 }, delta := { x := 0, y := 0 } },
    trace := [] }

/-- Append a call to the log. -/
def Sys.log (c : Call) (s : Sys) : Sys :=
  { s with trace := s.trace ++ [c] }

/-- Assign through a `WtkWindow *`: replace the block at `p` by `f` of its contents. -/
def Sys.poke (p : Nat) (f : WtkWindow → WtkWindow) (s : Sys) : Sys :=
  { s with mem := Function.update s.mem p (f (s.mem p)) }

/-- Reinterpret an integer as a 32-bit two's complement `int`. -/
def toInt32 (n : Int) : Int :=
  (n + 2147483648) % 4294967296 - 2147483648

/-! ## X11 backend -/

/-- X11 `init`: open the display, take a fresh association context (`XUniqueContext`, under
which nothing has been saved yet), create the colormap, intern `WM_DELETE_WINDOW`. -/
def init (n : Native) (s : Sys) : Bool × Sys :=
  let s := { s with display := n.XOpenDisplay }
  if n.XOpenDisplay = 0 then (false, s.log (.init false))
  else
    let s := { s with xcontext := fun _ => none }
    let s := { s with colormap := n.XCreateColormap }
    if n.XCreateColormap = 0 then (false, s.log (.init false))
    else
      let s := { s with wm_delwin := n.XInternAtom }
      if n.XInternAtom = 0 then (false, s.log (.init false))
      else (true, s.log (.init true))

/-- X11 `quit`: free the colormap and close the display, which releases the associations
saved on it. -/
def quit (s : Sys) : Sys :=
  { s with xcontext := fun _ => none }.log .quit

/-- X11 `createWindow`: create the native window, set its protocols, choose a framebuffer
configuration, create the context and register the window under its X id. -/
def createWindow (n : Native) (window : Nat) (s : Sys) : Bool × Sys :=
  let s := s.poke window (fun w => { w with window := n.XCreateWindow })
  if n.XCreateWindow = 0 then (false, s.log (.createWindow window false))
  else if !n.XSetWMProtocols then (false, s.log (.createWindow window false))
  else if !n.glXChooseFBConfig then (false, s.log (.createWindow window false))
  else
    let s := s.poke window (fun w => { w with context := n.glXCreateContext })
    let s := { s with xcontext := Function.update s.xcontext n.XCreateWindow (some window) }
    (true, s.log (.createWindow window true))

/-- X11 `deleteWindow`: destroy the context and the native window. -/
def deleteWindow (window : Nat) (s : Sys) : Sys :=
  s.log (.deleteWindow window)

/-- X11 `setWindowOrigin`: `XMoveWindow`. -/
def setWindowOrigin (window : Nat) (x y : Int) (s : Sys) : Sys :=
  s.log (.setWindowOrigin window x y)

/-- X11 `setWindowSize`: `XResizeWindow` with both sizes cast to `unsigned int`. -/
def setWindowSize (window : Nat) (w h : Int) (s : Sys) : Sys :=
  s.log (.setWindowSize window (w % 4294967296).toNat (h % 4294967296).toNat)

/-- X11 `setWindowTitle`: `XStoreName`. -/
def setWindowTitle (window : Nat) (title : String) (s : Sys) : Sys :=
  s.log (.setWindowTitle window title)

/-! ## Common facade -/

/-- The call `calloc(1, sizeof *window)`: on success a fresh zero-filled block. -/
def calloc (n : Native) (s : Sys) : Option Nat × Sys :=
  if n.calloc then
    (some s.brk,
      { s with mem := Function.update s.mem s.brk WtkWindow.zero,
               live := s.brk :: s.live, brk := s.brk + 1 })
  else (none, s)

/-- The call `free(window)`: the block is no longer live. -/
def free (window : Nat) (s : Sys) : Sys :=
  { s with live := s.live.erase window }

/-- The function `validateDesc`: fill in the defaults of a description. -/
def validateDesc (window : WtkWindow) : WtkWindow :=
  let window :=
    if window.desc.callback = none then
      { window with desc := { window.desc with callback := some .defaultEventCallback } }
    else window
  let window :=
    if window.desc.title = none then
      { window with desc := { window.desc with title := some "" } }
    else window
  let window :=
    if window.desc.w = 0 then { window with desc := { window.desc with w := 640 } }
    else window
  let window :=
    if window.desc.h = 0 then { window with desc := { window.desc with h := 480 } }
    else window
  window

/-- The function `WtkDeleteWindow`. -/
def WtkDeleteWindow (window : Option Nat) (s : Sys) : Sys :=
  match window with
  | none => s
  | some p =>
    let s := deleteWindow p s
    let s := free p s
    let s := { s with num_windows := s.num_windows - 1 }
    if s.num_windows = 0 then quit s else s

/-- The function `WtkCreateWindow`: the returned handle (`none` for `NULL`) and the new state. -/
def WtkCreateWindow (desc : Option WtkWindowDesc) (n : Native) (s : Sys) :
    Option Nat × Sys :=
  match desc with
  | none => (none, s)
  | some d =>
    let r := if s.num_windows = 0 then init n s else (true, s)
    if !r.1 then (none, r.2)
    else
      match calloc n r.2 with
      | (none, s) => (none, s)
      | (some window, s) =>
        let s := s.poke window (fun w => { w with desc := d })
        let s := s.poke window validateDesc
        let c := createWindow n window s
        if !c.1 then (none, WtkDeleteWindow (some window) c.2)
        else (some window, { c.2 with num_windows := c.2.num_windows + 1 })

/-- The function `WtkGetWindowRect`: the values written to `*x`, `*y`, `*w`, `*h`. -/
def WtkGetWindowRect (window : Option Nat) (s : World) : Int × Int × Int × Int :=
  match window with
  | none => (-1, -1, -1, -1)
  | some p => ((s.mem p).desc.x, (s.mem p).desc.y, (s.mem p).desc.w, (s.mem p).desc.h)

/-- The function `WtkGetWindowShouldClose`. -/
def WtkGetWindowShouldClose (window : Option Nat) (s : World) : Int :=
  match window with
  | none => 1
  | some p => (s.mem p).closed

/-- The function `WtkSetWindowOrigin`. -/
def WtkSetWindowOrigin (window : Option Nat) (x y : Int) (s : Sys) : Sys :=
  match window with
  | none => s
  | some p =>
    if x < 0 ∨ y < 0 then s
    else
      let s := setWindowOrigin p x y s
      let s := s.poke p (fun w => { w with desc := { w.desc with x := x } })
      s.poke p (fun w => { w with desc := { w.desc with y := y } })

/-- The function `WtkSetWindowSize`. -/
def WtkSetWindowSize (window : Option Nat) (w h : Int) (s : Sys) : Sys :=
  match window with
  | none => s
  | some p =>
    if w < 0 ∨ h < 0 then s
    else
      let s := setWindowSize p w h s
      let s := s.poke p (fun win => { win with desc := { win.desc with w := w } })
      s.poke p (fun win => { win with desc := { win.desc with h := h } })

/-- The function `WtkSetWindowTitle`. -/
def WtkSetWindowTitle (window : Option Nat) (title : Option String) (s : Sys) : Sys :=
  match window, title with
  | some p, some t =>
    let s := setWindowTitle p t s
    s.poke p (fun w => { w with desc := { w.desc with title := some t } })
  | _, _ => s

/-- The function `WtkSetWindowShouldClose`. -/
def WtkSetWindowShouldClose (window : Option Nat) (should_close : Int) (s : Sys) : Sys :=
  match window with
  | none => s
  | some p => s.poke p (fun w => { w with closed := should_close })

/-! ## X11 event translation and the event pump -/

/-! Xlib constants (`X11/X.h`, `X11/keysymdef.h`). -/

def KeyPress : Nat := 2
def KeyRelease : Nat := 3
def ButtonPress : Nat := 4
def ButtonRelease : Nat := 5
def MotionNotify : Nat := 6
def EnterNotify : Nat := 7
def LeaveNotify : Nat := 8
def UnmapNotify : Nat := 18
def MapNotify : Nat := 19
def ConfigureNotify : Nat := 22
def ClientMessage : Nat := 33

def ShiftMask : Nat := 1
def LockMask : Nat := 2
def ControlMask : Nat := 4
def Mod1Mask : Nat := 8
def Mod4Mask : Nat := 64

def Button1 : Nat := 1
def Button4 : Nat := 4
def Button5 : Nat := 5

def XK_BackSpace : Int := 0xff08
def XK_Tab : Int := 0xff09
def XK_Return : Int := 0xff0d
def XK_Escape : Int := 0xff1b
def XK_Home : Int := 0xff50
def XK_Left : Int := 0xff51
def XK_Up : Int := 0xff52
def XK_Right : Int := 0xff53
def XK_Down : Int := 0xff54
def XK_Page_Up : Int := 0xff55
def XK_Page_Down : Int := 0xff56
def XK_End : Int := 0xff57
def XK_Insert : Int := 0xff63
def XK_Delete : Int := 0xffff
def XK_F1 : Int := 0xffbe
def XK_F2 : Int := 0xffbf
def XK_F3 : Int := 0xffc0
def XK_F4 : Int := 0xffc1
def XK_F5 : Int := 0xffc2
def XK_F6 : Int := 0xffc3
def XK_F7 : Int := 0xffc4
def XK_F8 : Int := 0xffc5
def XK_F9 : Int := 0xffc6
def XK_F10 : Int := 0xffc7
def XK_F11 : Int := 0xffc8
def XK_F12 : Int := 0xffc9
def XK_Shift_L : Int := 0xffe1
def XK_Shift_R : Int := 0xffe2
def XK_Control_L : Int := 0xffe3
def XK_Control_R : Int := 0xffe4
def XK_Caps_Lock : Int := 0xffe5
def XK_Alt_L : Int := 0xffe9
def XK_Alt_R : Int := 0xffea
def XK_Super_L : Int := 0xffeb
def XK_Super_R : Int := 0xffec

/-! Key and modifier constants: the values of the enumerations `WtkKey` and `WtkMod` of
`include/wtk/wtk.h`, under the names `wtk.c` uses (`WtkKey_Up` is `WTK_KEY_UP`, ...). -/

def WTK_KEY_BACKSPACE : Int := 0x08
def WTK_KEY_TAB : Int := 0x09
def WTK_KEY_ENTER : Int := 0x0a
def WTK_KEY_ESCAPE : Int := 0x1b
def WTK_KEY_UP : Int := 0x80
def WTK_KEY_DOWN : Int := 0x81
def WTK_KEY_LEFT : Int := 0x82
def WTK_KEY_RIGHT : Int := 0x83
def WTK_KEY_F1 : Int := 0x84
def WTK_KEY_F2 : Int := 0x85
def WTK_KEY_F3 : Int := 0x86
def WTK_KEY_F4 : Int := 0x87
def WTK_KEY_F5 : Int := 0x88
def WTK_KEY_F6 : Int := 0x89
def WTK_KEY_F7 : Int := 0x8a
def WTK_KEY_F8 : Int := 0x8b
def WTK_KEY_F9 : Int := 0x8c
def WTK_KEY_F10 : Int := 0x8d
def WTK_KEY_F11 : Int := 0x8e
def WTK_KEY_F12 : Int := 0x8f
def WTK_KEY_LSHIFT : Int := 0x90
def WTK_KEY_LCTRL : Int := 0x91
def WTK_KEY_LSUPER : Int := 0x92
def WTK_KEY_LALT : Int := 0x93
def WTK_KEY_RSHIFT : Int := 0x94
def WTK_KEY_RCTRL : Int := 0x95
def WTK_KEY_RSUPER : Int := 0x96
def WTK_KEY_RALT : Int := 0x97
def WTK_KEY_CAPSLOCK : Int := 0x98

def WTK_MOD_SHIFT : Nat := 1
def WTK_MOD_CTRL : Nat := 2
def WTK_MOD_ALT : Nat := 4
def WTK_MOD_SUPER : Nat := 8

/-- The function `translateKeyCode`: look the key code up in the keyboard mapping (level 1
when shift is held) and map the key symbol through the table; other symbols are returned
as they are.
The key code is passed to Xlib as a `KeyCode` (`unsigned char`), the key symbol comes back
into an `int`. -/
def translateKeyCode (E : Env) (xkey : Nat) (state : Nat) : Int :=
  let xkey : Int :=
    toInt32 (E.XkbKeycodeToKeysym (xkey % 256) 0 (if state &&& ShiftMask ≠ 0 then 1 else 0))
  if xkey = XK_BackSpace then WTK_KEY_BACKSPACE
  else if xkey = XK_Tab then WTK_KEY_TAB
  else if xkey = XK_Return then WTK_KEY_ENTER
  else if xkey = XK_Escape then WTK_KEY_ESCAPE
  else if xkey = XK_Up then WTK_KEY_UP
  else if xkey = XK_Down then WTK_KEY_DOWN
  else if xkey = XK_Left then WTK_KEY_LEFT
  else if xkey = XK_Right then WTK_KEY_RIGHT
  else if xkey = XK_Page_Up then E.K.WTK_KEY_PAGEUP
  else if xkey = XK_Page_Down then E.K.WTK_KEY_PAGEDOWN
  else if xkey = XK_Home then E.K.WTK_KEY_HOME
  else if xkey = XK_End then E.K.WTK_KEY_END
  else if xkey = XK_Insert then E.K.WTK_KEY_INSERT
  else if xkey = XK_Delete then E.K.WTK_KEY_DELETE
  else if xkey = XK_F1 then WTK_KEY_F1
  else if xkey = XK_F2 then WTK_KEY_F2
  else if xkey = XK_F3 then WTK_KEY_F3
  else if xkey = XK_F4 then WTK_KEY_F4
  else if xkey = XK_F5 then WTK_KEY_F5
  else if xkey = XK_F6 then WTK_KEY_F6
  else if xkey = XK_F7 then WTK_KEY_F7
  else if xkey = XK_F8 then WTK_KEY_F8
  else if xkey = XK_F9 then WTK_KEY_F9
  else if xkey = XK_F10 then WTK_KEY_F10
  else if xkey = XK_F11 then WTK_KEY_F11
  else if xkey = XK_F12 then WTK_KEY_F12
  else if xkey = XK_Shift_L then WTK_KEY_LSHIFT
  else if xkey = XK_Shift_R then WTK_KEY_RSHIFT
  else if xkey = XK_Control_L then WTK_KEY_LCTRL
  else if xkey = XK_Control_R then WTK_KEY_RCTRL
  else if xkey = XK_Super_L then WTK_KEY_LSUPER
  else if xkey = XK_Super_R then WTK_KEY_RSUPER
  else if xkey = XK_Alt_L then WTK_KEY_LALT
  else if xkey = XK_Alt_R then WTK_KEY_RALT
  else if xkey = XK_Caps_Lock then WTK_KEY_CAPSLOCK
  else xkey

/-- The function `translateState`: the canonical modifier mask of a native modifier state. -/
def translateState (E : Env) (state : Nat) : Nat :=
  let modifiers := 0
  let modifiers := if state &&& ControlMask ≠ 0 then modifiers ||| WTK_MOD_CTRL else modifiers
  let modifiers := if state &&& ShiftMask ≠ 0 then modifiers ||| WTK_MOD_SHIFT else modifiers
  let modifiers := if state &&& Mod1Mask ≠ 0 then modifiers ||| WTK_MOD_ALT else modifiers
  let modifiers := if state &&& Mod4Mask ≠ 0 then modifiers ||| WTK_MOD_SUPER else modifiers
  let modifiers :=
    if state &&& LockMask ≠ 0 then modifiers ||| E.K.WTK_MOD_CAPSLOCK else modifiers
  modifiers

/-- The call `window->desc.callback(window, &event)`: logged with the state the callee
sees; `defaultEventCallback` does nothing, a callback of the caller acts by `E.run`.
Calling through a null pointer is undefined in C; the model logs the call and leaves the
state alone. -/
def callCallback (E : Env) (window : Nat) (event : WtkEvent) (s : Sys) : Sys :=
  let fn := (s.mem window).desc.callback
  let s := s.log (.callback fn window event s.toWorld)
  match fn with
  | some (.user f) => { s with toWorld := E.run f window event s.toWorld }
  | _ => s

/-- The event record that `postEvent` hands to the callback, given the previous one. -/
def buildEvent (E : Env) (previousEvent : WtkEvent) (type : WtkEventType) (xevent : XEvent) :
    WtkEvent :=
  let event : WtkEvent :=
    { type := type, keyCode := 0, modifiers := 0, buttonNumber := 0,
      location := { x := 0, y := 0 }, delta := { x := 0, y := 0 } }
  let event :=
    if type = WTK_EVENTTYPE_KEYDOWN ∨ type = WTK_EVENTTYPE_KEYUP then
      { event with keyCode := translateKeyCode E xevent.detail xevent.state,
                   modifiers := xevent.state,
                   location := { x := xevent.x, y := xevent.y } }
    else if type = WTK_EVENTTYPE_MOUSEDOWN ∨ type = WTK_EVENTTYPE_MOUSEUP then
      let event :=
        if xevent.detail = Button4 then { event with delta := { event.delta with y := 1 } }
        else if xevent.detail = Button5 then { event with delta := { event.delta with y := -1 } }
        else if xevent.detail = 6 then { event with delta := { event.delta with x := 1 } }
        else if xevent.detail = 7 then { event with delta := { event.delta with x := -1 } }
        else { event with buttonNumber := toInt32 ((xevent.detail : Int) - Button1 - 4) }
      { event with modifiers := xevent.state,
                   location := { x := xevent.x, y := xevent.y } }
    else if type = WTK_EVENTTYPE_MOUSEMOTION then
      { event with modifiers := xevent.state,
                   location := { x := xevent.x, y := xevent.y } }
    else event
  let event := { event with modifiers := translateState E event.modifiers }
  let event :=
    { event with delta := { event.delta with x := event.location.x - previousEvent.location.x } }
  let event :=
    { event with delta := { event.delta with y := event.location.y - previousEvent.location.y } }
  event

/-- The function `postEvent`: build the event, call the window's callback, remember the event. -/
def postEvent (E : Env) (window : Nat) (type : WtkEventType) (xevent : XEvent) (s : Sys) :
    Sys :=
  let event := buildEvent E s.previousEvent type xevent
  let s := callCallback E window event s
  { s with previousEvent := event }

/-- The `switch (event.type)` of `pollEvents`, for an event whose window is registered. -/
def pollSwitch (E : Env) (window : Nat) (event : XEvent) (s : Sys) : Sys :=
  if event.type = KeyPress then postEvent E window WTK_EVENTTYPE_KEYDOWN event s
  else if event.type = KeyRelease then postEvent E window WTK_EVENTTYPE_KEYUP event s
  else if event.type = ButtonPress then postEvent E window WTK_EVENTTYPE_MOUSEDOWN event s
  else if event.type = ButtonRelease then postEvent E window WTK_EVENTTYPE_MOUSEUP event s
  else if event.type = MotionNotify then postEvent E window WTK_EVENTTYPE_MOUSEMOTION event s
  else if event.type = EnterNotify then postEvent E window WTK_EVENTTYPE_MOUSEENTER event s
  else if event.type = LeaveNotify then postEvent E window WTK_EVENTTYPE_MOUSELEAVE event s
  else if event.type = MapNotify then postEvent E window WTK_EVENTTYPE_WINDOWFOCUSIN event s
  else if event.type = UnmapNotify then postEvent E window WTK_EVENTTYPE_WINDOWFOCUSOUT event s
  else if event.type = ConfigureNotify then
    let s := s.poke window (fun w => { w with desc := { w.desc with x := event.cx } })
    let s := s.poke window (fun w => { w with desc := { w.desc with y := event.cy } })
    let s := s.poke window (fun w => { w with desc := { w.desc with w := event.width } })
    let s := s.poke window (fun w => { w with desc := { w.desc with h := event.height } })
    postEvent E window WTK_EVENTTYPE_WINDOWRESIZE event s
  else if event.type = ClientMessage then
    if event.data0 = s.wm_delwin then
      let s := WtkSetWindowShouldClose (some window) 1 s
      postEvent E window WTK_EVENTTYPE_WINDOWCLOSE event s
    else s
  else s

/-- X11 `pollEvents` on the queue of pending native events: take the events one by one,
skip those whose window has no association, run the switch on the others. -/
def pollEvents (E : Env) : List XEvent → Sys → Sys
  | [], s => s
  | event :: pending, s =>
    match s.xcontext event.window with
    | none => pollEvents E pending s
    | some window => pollEvents E pending (pollSwitch E window event s)

/-- The function `WtkPollEvents`. -/
def WtkPollEvents (E : Env) (pending : List XEvent) (s : Sys) : Sys :=
  pollEvents E pending s

/-! ## Observations on runs -/

/-- Is the call an invocation of the backend bootstrap `init`? -/
def Call.isInit : Call → Bool
  | .init _ => true
  | _ => false

/-- Is the call an invocation of the backend teardown `quit`? -/
def Call.isQuit : Call → Bool
  | .quit => true
  | _ => false

/-- Number of `init` invocations in a log. -/
def initCalls (t : List Call) : Nat :=
  t.countP Call.isInit

/-- Number of `quit` invocations in a log. -/
def quitCalls (t : List Call) : Nat :=
  t.countP Call.isQuit

/-- Is the backend bootstrapped at the end of the log: some `init` has returned success
and no `quit` has run since. -/
def bootstrapped (t : List Call) : Bool :=
  t.foldl (fun b c => match c with
    | .init true => true
    | .quit => false
    | _ => b) false

/-- Call `WtkCreateWindow` once per request, in order; the handles returned and the final
state. -/
def createAll : List (WtkWindowDesc × Native) → Sys → List (Option Nat) × Sys
  | [], s => ([], s)
  | (d, n) :: rest, s =>
    let r := WtkCreateWindow (some d) n s
    let rs := createAll rest r.2
    (r.1 :: rs.1, rs.2)

/-- Call `WtkDeleteWindow` on each handle of the list, in order. -/
def deleteAll : List Nat → Sys → Sys
  | [], s => s
  | p :: rest, s => deleteAll rest (WtkDeleteWindow (some p) s)

/-- A native environment in which every call of one `WtkCreateWindow` succeeds. -/
def Native.allOk : Native :=
  { XOpenDisplay := 1, XCreateColormap := 1, XInternAtom := 7, calloc := true,
    XCreateWindow := 100, XSetWMProtocols := true, glXChooseFBConfig := true,
    glXCreateContext := 9 }

/-- A native environment in which `glXChooseFBConfig` finds no framebuffer configuration,
so that the backend `createWindow` returns 0. -/
def Native.createFails : Native :=
  { Native.allOk with glXChooseFBConfig := false }

/-- A native environment in which `XOpenDisplay` fails (returns `NULL`). -/
def Native.initFails : Native :=
  { Native.allOk with XOpenDisplay := 0 }

/-- An environment for evaluating the code on concrete inputs: sample values for the
constants the header does not declare, a keyboard mapping that yields the key code itself,
and caller callbacks without effect on the program state. -/
def Env.sample : Env :=
  { K := { WTK_KEY_PAGEUP := 0x99, WTK_KEY_PAGEDOWN := 0x9a, WTK_KEY_HOME := 0x9b,
           WTK_KEY_END := 0x9c, WTK_KEY_INSERT := 0x9d, WTK_KEY_DELETE := 0x9e,
           WTK_MOD_CAPSLOCK := 16 },
    XkbKeycodeToKeysym := fun keycode _ _ => keycode,
    run := fun _ _ _ w => w }

/-- A native event of the given type for the given X window, every other field zero. -/
def XEvent.blank (type window : Nat) : XEvent :=
  { type := type, window := window, state := 0, detail := 0, x := 0, y := 0,
    cx := 0, cy := 0, width := 0, height := 0, data0 := 0 }

/-- The all-zero description `(WtkWindowDesc){0}`. -/
def WtkWindowDesc.zero : WtkWindowDesc :=
  { callback := none, title := none, x := 0, y := 0, w := 0, h := 0 }

/-! ## Observations on the event pump -/

/-- Xlib's event type `Expose` (`X11/X.h`); `createWindow` selects it with `ExposureMask`
and the switch of `pollEvents` has no case for it. -/
def Expose : Nat := 12

/-- The event kind under which the switch of `pollEvents` posts a native event, read off
the `case` labels; `none` where the switch posts nothing (no case for the type, or a
`ClientMessage` that does not carry `WM_DELETE_WINDOW`). -/
def dispatchType (wm_delwin : Nat) (event : XEvent) : Option WtkEventType :=
  if event.type = KeyPress then some WTK_EVENTTYPE_KEYDOWN
  else if event.type = KeyRelease then some WTK_EVENTTYPE_KEYUP
  else if event.type = ButtonPress then some WTK_EVENTTYPE_MOUSEDOWN
  else if event.type = ButtonRelease then some WTK_EVENTTYPE_MOUSEUP
  else if event.type = MotionNotify then some WTK_EVENTTYPE_MOUSEMOTION
  else if event.type = EnterNotify then some WTK_EVENTTYPE_MOUSEENTER
  else if event.type = LeaveNotify then some WTK_EVENTTYPE_MOUSELEAVE
  else if event.type = MapNotify then some WTK_EVENTTYPE_WINDOWFOCUSIN
  else if event.type = UnmapNotify then some WTK_EVENTTYPE_WINDOWFOCUSOUT
  else if event.type = ConfigureNotify then some WTK_EVENTTYPE_WINDOWRESIZE
  else if event.type = ClientMessage then
    if event.data0 = wm_delwin then some WTK_EVENTTYPE_WINDOWCLOSE else none
  else none

/-- What the switch of `pollEvents` stores into the window before it posts the event: the
new rect for a `ConfigureNotify`, the close flag for a close message, nothing otherwise. -/
def beforePost (window : Nat) (event : XEvent) (s : Sys) : Sys :=
  if event.type = ConfigureNotify then
    (((s.poke window (fun w => { w with desc := { w.desc with x := event.cx } })).poke
      window (fun w => { w with desc := { w.desc with y := event.cy } })).poke
      window (fun w => { w with desc := { w.desc with w := event.width } })).poke
      window (fun w => { w with desc := { w.desc with h := event.height } })
  else if event.type = ClientMessage then
    WtkSetWindowShouldClose (some window) 1 s
  else s

/-- The callback invocations of a log, oldest first: the window and the event passed. -/
def callbacks : List Call → List (Nat × WtkEvent)
  | [] => []
  | .callback _ window event _ :: t => (window, event) :: callbacks t
  | _ :: t => callbacks t

/-- The state after one `WtkCreateWindow` of the all-zero description in which every
native call succeeds: window block 1, X window 100, `WM_DELETE_WINDOW` atom 7. -/
def Sys.oneWindow : Sys :=
  (WtkCreateWindow (some WtkWindowDesc.zero) Native.allOk Sys.initial).2

/-- A native pointer-motion event for X window 100 at the given window coordinates. -/
def XEvent.motionAt (x y : Int) : XEvent :=
  { XEvent.blank MotionNotify 100 with x := x, y := y }

/-- A native button event of the given type for X window 100: button code and pointer
position. -/
def XEvent.buttonAt (type button : Nat) (x y : Int) : XEvent :=
  { XEvent.blank type 100 with detail := button, x := x, y := y }

/-- The key table as the specification words it: each native key symbol of the table with
the canonical key constant it stands for, in the order of the `case` labels. -/
def keyTable (K : MissingConsts) : List (Int × Int) :=
  [ (XK_BackSpace, WTK_KEY_BACKSPACE), (XK_Tab, WTK_KEY_TAB), (XK_Return, WTK_KEY_ENTER),
    (XK_Escape, WTK_KEY_ESCAPE), (XK_Up, WTK_KEY_UP), (XK_Down, WTK_KEY_DOWN),
    (XK_Left, WTK_KEY_LEFT), (XK_Right, WTK_KEY_RIGHT),
    (XK_Page_Up, K.WTK_KEY_PAGEUP), (XK_Page_Down, K.WTK_KEY_PAGEDOWN),
    (XK_Home, K.WTK_KEY_HOME), (XK_End, K.WTK_KEY_END),
    (XK_Insert, K.WTK_KEY_INSERT), (XK_Delete, K.WTK_KEY_DELETE),
    (XK_F1, WTK_KEY_F1), (XK_F2, WTK_KEY_F2), (XK_F3, WTK_KEY_F3), (XK_F4, WTK_KEY_F4),
    (XK_F5, WTK_KEY_F5), (XK_F6, WTK_KEY_F6), (XK_F7, WTK_KEY_F7), (XK_F8, WTK_KEY_F8),
    (XK_F9, WTK_KEY_F9), (XK_F10, WTK_KEY_F10), (XK_F11, WTK_KEY_F11),
    (XK_F12, WTK_KEY_F12),
    (XK_Shift_L, WTK_KEY_LSHIFT), (XK_Shift_R, WTK_KEY_RSHIFT),
    (XK_Control_L, WTK_KEY_LCTRL), (XK_Control_R, WTK_KEY_RCTRL),
    (XK_Super_L, WTK_KEY_LSUPER), (XK_Super_R, WTK_KEY_RSUPER),
    (XK_Alt_L, WTK_KEY_LALT), (XK_Alt_R, WTK_KEY_RALT),
    (XK_Caps_Lock, WTK_KEY_CAPSLOCK) ]

/-- Table lookup as the specification words it: a key symbol found in the table gives the
constant paired with it, any other symbol passes through unchanged. -/
def tableLookup : List (Int × Int) → Int → Int
  | [], sym => sym
  | (k, v) :: rest, sym => if sym = k then v else tableLookup rest sym

/-- The key symbol that `translateKeyCode` obtains from Xlib for a key code and a modifier
state, before the conversion to `int`. -/
def keysymOf (E : Env) (xkey : Nat) (state : Nat) : Nat :=
  E.XkbKeycodeToKeysym (xkey % 256) 0 (if state &&& ShiftMask ≠ 0 then 1 else 0)

/-- The sample environment with a small keyboard mapping: key code 111 is the up arrow,
key code 38 is the letter a (capital at level 1), every other key code has no symbol. -/
def Env.keyboard : Env :=
  { Env.sample with
    XkbKeycodeToKeysym := fun keycode _ level =>
      if keycode = 111 then 0xff52
      else if keycode = 38 then (if level = 1 then 0x41 else 0x61)
      else 0 }

/-- The callback that the pump owes a native event in a given state: the owner of the
event's window and the kind the switch posts it under; `none` when the window has no
registered owner or the switch posts nothing for the event. -/
def owedCallback (s : World) (event : XEvent) : Option (Nat × WtkEventType) :=
  match s.xcontext event.window, dispatchType s.wm_delwin event with
  | some window, some t => some (window, t)
  | _, _ => none

/-- The native event types within the scope of the statement about whole queues. The
focus and map notifications (`FocusIn`, `FocusOut`, `MapNotify`, `UnmapNotify`) and the
types the window does not select are outside of it. -/
def pumpTypes : List Nat :=
  [KeyPress, KeyRelease, ButtonPress, ButtonRelease, MotionNotify, EnterNotify,
   LeaveNotify, ConfigureNotify, ClientMessage, Expose]

/-- Is a native event within the scope of the statement about whole queues, in a given
state: its window has no registered owner, or the registered owner is a window that is
allocated and not deleted and the type of the event is one of `pumpTypes`. -/
def inPumpScope (s : World) (event : XEvent) : Bool :=
  match s.xcontext event.window with
  | none => true
  | some window => decide (window ∈ s.live) && decide (event.type ∈ pumpTypes)

/-- The one-window state after `WtkDeleteWindow` on a second window that was created
and deleted again: window 1 is alive, the X id 200 of the deleted window 2 is still in
the association table. -/
def Sys.staleRegistration : Sys :=
  WtkDeleteWindow (some 2)
    (WtkCreateWindow (some WtkWindowDesc.zero) { Native.allOk with XCreateWindow := 200 }
      Sys.oneWindow).2

/-! ## Lifecycle: bootstrap and teardown counting -/

/-- The function `init` leaves the counter alone, logs one `init` call and no `quit`. -/
theorem init_facts (n : Native) (s : Sys) :
    (init n s).2.num_windows = s.num_windows ∧
    initCalls (init n s).2.trace = initCalls s.trace + 1 ∧
    quitCalls (init n s).2.trace = quitCalls s.trace := by
  unfold init
  simp only [Sys.log, initCalls, quitCalls]
  split_ifs <;> simp [Call.isInit, Call.isQuit]

/-- The backend `createWindow` leaves the counter alone and logs neither `init` nor `quit`. -/
theorem createWindow_facts (n : Native) (p : Nat) (s : Sys) :
    (createWindow n p s).2.num_windows = s.num_windows ∧
    initCalls (createWindow n p s).2.trace = initCalls s.trace ∧
    quitCalls (createWindow n p s).2.trace = quitCalls s.trace := by
  unfold createWindow
  simp only [Sys.log, Sys.poke, initCalls, quitCalls]
  split_ifs <;> simp [Call.isInit, Call.isQuit]

/-- The function `WtkDeleteWindow` on a non-null handle decrements the counter and calls
`quit` exactly when the counter was one. -/
theorem WtkDeleteWindow_facts (p : Nat) (s : Sys) :
    (WtkDeleteWindow (some p) s).num_windows = s.num_windows - 1 ∧
    initCalls (WtkDeleteWindow (some p) s).trace = initCalls s.trace ∧
    quitCalls (WtkDeleteWindow (some p) s).trace
      = quitCalls s.trace + (if s.num_windows = 1 then 1 else 0) := by
  simp only [WtkDeleteWindow, deleteWindow, free, quit, Sys.log, initCalls, quitCalls]
  by_cases h : s.num_windows = 1
  · simp [h, Call.isInit, Call.isQuit]
  · have : ¬ (s.num_windows - 1 = 0) := by omega
    simp [h, this, Call.isInit, Call.isQuit]

/-- The function `calloc` touches neither the counter nor the log. -/
theorem calloc_facts (n : Native) (s : Sys) :
    (calloc n s).2.num_windows = s.num_windows ∧ (calloc n s).2.trace = s.trace := by
  unfold calloc
  split_ifs <;> simp

/-- A `WtkCreateWindow` that returns a handle increments the counter, calls `init` exactly
when the counter was zero, and never calls `quit`. -/
theorem WtkCreateWindow_facts (d : WtkWindowDesc) (n : Native) (s : Sys) (p : Nat)
    (h : (WtkCreateWindow (some d) n s).1 = some p) :
    (WtkCreateWindow (some d) n s).2.num_windows = s.num_windows + 1 ∧
    initCalls (WtkCreateWindow (some d) n s).2.trace
      = initCalls s.trace + (if s.num_windows = 0 then 1 else 0) ∧
    quitCalls (WtkCreateWindow (some d) n s).2.trace = quitCalls s.trace := by
  simp only [WtkCreateWindow] at h ⊢
  generalize hr : (if s.num_windows = 0 then init n s else (true, s)) = r at h ⊢
  have hr2 : r.2.num_windows = s.num_windows ∧
      initCalls r.2.trace = initCalls s.trace + (if s.num_windows = 0 then 1 else 0) ∧
      quitCalls r.2.trace = quitCalls s.trace := by
    subst hr
    have hi := init_facts n s
    split_ifs <;> simp [hi]
  clear hr
  obtain ⟨ok, s1⟩ := r
  cases ok
  · simp at h
  · have hc2 := calloc_facts n s1
    generalize calloc n s1 = c at h hc2 ⊢
    obtain ⟨o, s2⟩ := c
    cases o
    · simp at h
    · rename_i w
      dsimp only at h ⊢
      have hw := createWindow_facts n w
        ((s2.poke w fun w => { w with desc := d }).poke w validateDesc)
      generalize createWindow n w
        ((s2.poke w fun w => { w with desc := d }).poke w validateDesc) = c at h hw ⊢
      obtain ⟨ok, s3⟩ := c
      cases ok
      · simp at h
      · simp only [Sys.poke] at hw
        simp only [Bool.not_true, Bool.false_eq_true, if_false] at h ⊢
        simp only [] at hr2 hc2 hw ⊢
        rw [hw.1, hw.2.1, hw.2.2, hc2.1, hc2.2, hr2.1, hr2.2.1, hr2.2.2]
        simp

/-- Successful creations in a row: the counter grows by their number, `init` runs once if
the counter started at zero, `quit` never runs. -/
theorem createAll_facts (reqs : List (WtkWindowDesc × Native)) :
    ∀ s : Sys, 0 ≤ s.num_windows → (∀ r ∈ (createAll reqs s).1, r ≠ none) →
      (createAll reqs s).2.num_windows = s.num_windows + reqs.length ∧
      initCalls (createAll reqs s).2.trace
        = initCalls s.trace + (if s.num_windows = 0 ∧ reqs ≠ [] then 1 else 0) ∧
      quitCalls (createAll reqs s).2.trace = quitCalls s.trace ∧
      (createAll reqs s).1.length = reqs.length := by
  induction reqs with
  | nil => intro s _ _; simp [createAll]
  | cons dn rest ih =>
    intro s hs hok
    obtain ⟨d, n⟩ := dn
    simp only [createAll, List.mem_cons, forall_eq_or_imp] at hok ⊢
    obtain ⟨p, hp⟩ := Option.ne_none_iff_exists'.mp hok.1
    have hf := WtkCreateWindow_facts d n s p hp
    have hi := ih (WtkCreateWindow (some d) n s).2 (by omega) hok.2
    refine ⟨?_, ?_, ?_, ?_⟩
    · rw [hi.1, hf.1]; simp only [List.length_cons]; push_cast; ring
    · rw [hi.2.1, hf.2.1, hf.1]
      have : ¬ (s.num_windows + 1 = 0) := by omega
      simp [this]
    · rw [hi.2.2.1, hf.2.2]
    · simp [hi.2.2.2]

/-- Deleting `k` handles while the counter is at least `k`: the counter drops by `k`, and
`quit` runs once exactly when the counter reaches zero. -/
theorem deleteAll_facts (order : List Nat) :
    ∀ s : Sys, (order.length : Int) ≤ s.num_windows →
      (deleteAll order s).num_windows = s.num_windows - order.length ∧
      initCalls (deleteAll order s).trace = initCalls s.trace ∧
      quitCalls (deleteAll order s).trace
        = quitCalls s.trace + (if s.num_windows = order.length ∧ order ≠ [] then 1 else 0) := by
  induction order with
  | nil => intro s _; simp [deleteAll]
  | cons p rest ih =>
    intro s hs
    simp only [List.length_cons, Nat.cast_add, Nat.cast_one] at hs
    have hd := WtkDeleteWindow_facts p s
    have hi := ih (WtkDeleteWindow (some p) s) (by rw [hd.1]; omega)
    simp only [deleteAll]
    refine ⟨?_, ?_, ?_⟩
    · rw [hi.1, hd.1]; simp only [List.length_cons]; push_cast; ring
    · rw [hi.2.1, hd.2.1]
    · rw [hi.2.2, hd.2.2, hd.1]
      simp only [List.length_cons, Nat.cast_add, Nat.cast_one, ne_eq, reduceCtorEq,
        not_false_eq_true, and_true]
      rcases rest with _ | ⟨q, rest⟩
      · by_cases h1 : s.num_windows = 1 <;> simp [h1]
      · simp only [List.length_cons, Nat.cast_add, Nat.cast_one] at hs ⊢
        have h1 : ¬ (s.num_windows = 1) := by omega
        by_cases h2 : s.num_windows = (rest.length : Int) + 1 + 1
        · have h3 : s.num_windows - 1 = (rest.length : Int) + 1 := by omega
          have h4 : ¬ ((rest.length : Int) + 1 = 0) := by omega
          simp [h1, h2, h3, h4]
        · have h3 : ¬ (s.num_windows - 1 = (rest.length : Int) + 1) := by omega
          simp [h1, h2, h3]

/-- C1: starting with the live-window counter at zero, creating `N ≥ 1` windows with
`WtkCreateWindow`, every call returning a handle, and then deleting the returned handles
with `WtkDeleteWindow` in any order (any permutation of them) calls `init` exactly once and
`quit` exactly once and leaves the counter at zero.  The `init` call happens in the first
creation, no `quit` happens before the last deletion, and a single creation followed by
the deletion of its handle leaves the counter at zero with one `quit`. -/
theorem create_all_then_delete_all (s : Sys) (reqs : List (WtkWindowDesc × Native))
    (order : List Nat)
    (hs : s.num_windows = 0) (hN : 1 ≤ reqs.length)
    (hok : ∀ r ∈ (createAll reqs s).1, r ≠ none)
    (hperm : (order.map some).Perm (createAll reqs s).1) :
    initCalls (deleteAll order (createAll reqs s).2).trace = initCalls s.trace + 1 ∧
    quitCalls (deleteAll order (createAll reqs s).2).trace = quitCalls s.trace + 1 ∧
    (deleteAll order (createAll reqs s).2).num_windows = 0 ∧
    (∀ d n rest, reqs = (d, n) :: rest →
      initCalls (WtkCreateWindow (some d) n s).2.trace = initCalls s.trace + 1) ∧
    quitCalls (deleteAll order.dropLast (createAll reqs s).2).trace = quitCalls s.trace ∧
    (∀ d n p, (WtkCreateWindow (some d) n s).1 = some p →
      (WtkDeleteWindow (some p) (WtkCreateWindow (some d) n s).2).num_windows = 0 ∧
      quitCalls (WtkDeleteWindow (some p) (WtkCreateWindow (some d) n s).2).trace
        = quitCalls s.trace + 1) := by
  have hc := createAll_facts reqs s (by omega) hok
  have hne : reqs ≠ [] := by intro h; simp [h] at hN
  have hlen : order.length = reqs.length := by
    have := hperm.length_eq
    simpa [hc.2.2.2] using this
  have hone : order ≠ [] := by intro h; simp [h] at hlen; omega
  have hd := deleteAll_facts order (createAll reqs s).2 (by rw [hc.1, hlen]; omega)
  have hd2 := deleteAll_facts order.dropLast (createAll reqs s).2
    (by rw [hc.1, List.length_dropLast, hlen]; omega)
  refine ⟨?_, ?_, ?_, ?_, ?_, ?_⟩
  · rw [hd.2.1, hc.2.1]; simp [hs, hne]
  · rw [hd.2.2, hc.2.2.1, hc.1, hlen]; simp [hs, hone]
  · rw [hd.1, hc.1, hlen, hs]; simp
  · intro d n rest hreq
    subst hreq
    simp only [createAll, List.mem_cons, forall_eq_or_imp] at hok
    obtain ⟨p, hp⟩ := Option.ne_none_iff_exists'.mp hok.1
    rw [(WtkCreateWindow_facts d n s p hp).2.1]; simp [hs]
  · rw [hd2.2.2, hc.2.2.1, hc.1, List.length_dropLast, hlen, hs]
    have : ¬ (reqs.length = reqs.length - 1) := by omega
    simp [this]
  · intro d n p hp
    have hf := WtkCreateWindow_facts d n s p hp
    have hx := WtkDeleteWindow_facts p (WtkCreateWindow (some d) n s).2
    rw [hx.1, hx.2.2, hf.1, hf.2.2, hs]
    simp

/-- Witness for C1: two windows created from the initial state and deleted in reverse
order. -/
theorem create_all_then_delete_all_witness :
    initCalls (deleteAll [2, 1] (createAll
      [(WtkWindowDesc.zero, Native.allOk), (WtkWindowDesc.zero, Native.allOk)]
      Sys.initial).2).trace = 1 ∧
    quitCalls (deleteAll [2, 1] (createAll
      [(WtkWindowDesc.zero, Native.allOk), (WtkWindowDesc.zero, Native.allOk)]
      Sys.initial).2).trace = 1 ∧
    (deleteAll [2, 1] (createAll
      [(WtkWindowDesc.zero, Native.allOk), (WtkWindowDesc.zero, Native.allOk)]
      Sys.initial).2).num_windows = 0 :=
  have h := create_all_then_delete_all Sys.initial
    [(WtkWindowDesc.zero, Native.allOk), (WtkWindowDesc.zero, Native.allOk)] [2, 1]
    rfl (by decide) (by decide) (by decide)
  ⟨h.1, h.2.1, h.2.2.1⟩

/-- C2 at its failing input: a first window is created, then a second `WtkCreateWindow`
fails in the backend `createWindow`.  The failed call returns `NULL`, yet `quit` has run
and the backend is no longer bootstrapped while the first window (handle `1`) is still
allocated and was never deleted; before the failed call the backend was bootstrapped. -/
theorem failed_create_tears_down_backend :
    (createAll [(WtkWindowDesc.zero, Native.allOk), (WtkWindowDesc.zero, Native.createFails)]
      Sys.initial).1 = [some 1, none] ∧
    (createAll [(WtkWindowDesc.zero, Native.allOk), (WtkWindowDesc.zero, Native.createFails)]
      Sys.initial).2.live = [1] ∧
    quitCalls (createAll
      [(WtkWindowDesc.zero, Native.allOk), (WtkWindowDesc.zero, Native.createFails)]
      Sys.initial).2.trace = 1 ∧
    bootstrapped (createAll
      [(WtkWindowDesc.zero, Native.allOk), (WtkWindowDesc.zero, Native.createFails)]
      Sys.initial).2.trace = false ∧
    bootstrapped (createAll [(WtkWindowDesc.zero, Native.allOk)] Sys.initial).2.trace
      = true := by
  decide

/-- C3 at its failing input: from the initial state (counter zero, no window), a
`WtkCreateWindow` whose backend `createWindow` fails returns `NULL`, leaves no window
allocated, and leaves the counter at `-1` instead of `0`. -/
theorem failed_create_decrements_counter :
    (WtkCreateWindow (some WtkWindowDesc.zero) Native.createFails Sys.initial).1 = none ∧
    (WtkCreateWindow (some WtkWindowDesc.zero) Native.createFails Sys.initial).2.live = [] ∧
    (WtkCreateWindow (some WtkWindowDesc.zero) Native.createFails Sys.initial).2.num_windows
      = -1 := by
  decide

/-- Whatever its outcome, `WtkCreateWindow` on a non-null description calls `init` exactly
when the counter is zero on entry. -/
theorem WtkCreateWindow_initCalls (d : WtkWindowDesc) (n : Native) (s : Sys) :
    initCalls (WtkCreateWindow (some d) n s).2.trace
      = initCalls s.trace + (if s.num_windows = 0 then 1 else 0) := by
  simp only [WtkCreateWindow]
  generalize hr : (if s.num_windows = 0 then init n s else (true, s)) = r
  have hr2 : initCalls r.2.trace = initCalls s.trace + (if s.num_windows = 0 then 1 else 0) := by
    subst hr
    have hi := init_facts n s
    split_ifs <;> simp [hi]
  clear hr
  obtain ⟨ok, s1⟩ := r
  cases ok
  · simpa using hr2
  · have hc2 := calloc_facts n s1
    generalize calloc n s1 = c at hc2 ⊢
    obtain ⟨o, s2⟩ := c
    cases o
    · simp only [] at hc2 hr2 ⊢
      simp [hc2.2, hr2]
    · rename_i w
      dsimp only
      have hw := createWindow_facts n w
        ((s2.poke w fun w => { w with desc := d }).poke w validateDesc)
      generalize createWindow n w
        ((s2.poke w fun w => { w with desc := d }).poke w validateDesc) = c at hw ⊢
      obtain ⟨ok, s3⟩ := c
      simp only [Sys.poke] at hw
      simp only [] at hr2 hc2 hw
      cases ok
      · simp only [Bool.not_true, Bool.not_false, Bool.false_eq_true, if_true, if_false]
        rw [(WtkDeleteWindow_facts w s3).2.1, hw.2.1, hc2.2, hr2]
      · simp only [Bool.not_true, Bool.false_eq_true, if_false]
        rw [hw.2.1, hc2.2, hr2]

/-- C4: if `init` fails during a `WtkCreateWindow` made while the counter is zero, the call
returns `NULL`, the counter is still zero, no block is allocated (heap, list of live
blocks and allocation mark are untouched), the only call made is the failed `init`; and
the next `WtkCreateWindow`, whatever its arguments, calls `init` once more. -/
theorem init_failure_leaves_counter_zero (s : Sys) (d d' : WtkWindowDesc) (n n' : Native)
    (hs : s.num_windows = 0) (hfail : (init n s).1 = false) :
    (WtkCreateWindow (some d) n s).1 = none ∧
    (WtkCreateWindow (some d) n s).2.num_windows = 0 ∧
    (WtkCreateWindow (some d) n s).2.live = s.live ∧
    (WtkCreateWindow (some d) n s).2.mem = s.mem ∧
    (WtkCreateWindow (some d) n s).2.brk = s.brk ∧
    (WtkCreateWindow (some d) n s).2.trace = s.trace ++ [Call.init false] ∧
    initCalls (WtkCreateWindow (some d') n' (WtkCreateWindow (some d) n s).2).2.trace
      = initCalls (WtkCreateWindow (some d) n s).2.trace + 1 := by
  have hst : (WtkCreateWindow (some d) n s) = (none, (init n s).2) := by
    simp [WtkCreateWindow, hs, hfail]
  have hnum : (init n s).2.num_windows = 0 := by rw [(init_facts n s).1, hs]
  refine ⟨?_, ?_, ?_, ?_, ?_, ?_, ?_⟩
  · rw [hst]
  · rw [hst]; exact hnum
  · rw [hst]; unfold init; simp only [Sys.log]; split_ifs <;> rfl
  · rw [hst]; unfold init; simp only [Sys.log]; split_ifs <;> rfl
  · rw [hst]; unfold init; simp only [Sys.log]; split_ifs <;> rfl
  · rw [hst]
    unfold init at hfail ⊢
    simp only [Sys.log] at hfail ⊢
    split_ifs at hfail ⊢ <;> rfl
  · rw [WtkCreateWindow_initCalls, hst]
    simp [hnum]

/-- Witness for C4: `XOpenDisplay` fails on the first call from the initial state. -/
theorem init_failure_leaves_counter_zero_witness :
    (WtkCreateWindow (some WtkWindowDesc.zero) Native.initFails Sys.initial).1 = none ∧
    (WtkCreateWindow (some WtkWindowDesc.zero) Native.initFails Sys.initial).2.num_windows
      = 0 ∧
    initCalls (WtkCreateWindow (some WtkWindowDesc.zero) Native.allOk
      (WtkCreateWindow (some WtkWindowDesc.zero) Native.initFails Sys.initial).2).2.trace
      = initCalls (WtkCreateWindow (some WtkWindowDesc.zero) Native.initFails
          Sys.initial).2.trace + 1 :=
  have h := init_failure_leaves_counter_zero Sys.initial WtkWindowDesc.zero WtkWindowDesc.zero
    Native.initFails Native.allOk rfl (by decide)
  ⟨h.1, h.2.1, h.2.2.2.2.2.2⟩


/-! ## Setters and getters -/

/-- C5: for every window handle and all integers `w`, `h`: if `w < 0` or `h < 0`,
`WtkSetWindowSize` returns the state as it was (the stored rect is unchanged and nothing is
logged, so no native resize call is made); if `w ≥ 0` and `h ≥ 0`, then `WtkGetWindowRect`
right after the call reports the old `x`, `y` and the new `w`, `h`. -/
theorem WtkSetWindowSize_spec (s : Sys) (p : Nat) (w h : Int) :
    (w < 0 ∨ h < 0 →
      WtkSetWindowSize (some p) w h s = s ∧
      WtkGetWindowRect (some p) (WtkSetWindowSize (some p) w h s).toWorld
        = WtkGetWindowRect (some p) s.toWorld ∧
      (WtkSetWindowSize (some p) w h s).trace = s.trace) ∧
    (0 ≤ w → 0 ≤ h →
      WtkGetWindowRect (some p) (WtkSetWindowSize (some p) w h s).toWorld
        = ((s.mem p).desc.x, (s.mem p).desc.y, w, h)) := by
  constructor
  · intro hneg
    simp [WtkSetWindowSize, hneg]
  · intro hw hh
    have hneg : ¬ (w < 0 ∨ h < 0) := by omega
    simp [WtkSetWindowSize, hneg, WtkGetWindowRect, setWindowSize, Sys.poke, Sys.log]

/-- Witness for C5: a rejected size `(-1, 600)` and an accepted size `(800, 600)` on the
window created from the all-zero description. -/
theorem WtkSetWindowSize_spec_witness :
    WtkGetWindowRect (some 1) (WtkSetWindowSize (some 1) (-1) 600
      (WtkCreateWindow (some WtkWindowDesc.zero) Native.allOk Sys.initial).2).toWorld
      = (0, 0, 640, 480) ∧
    WtkGetWindowRect (some 1) (WtkSetWindowSize (some 1) 800 600
      (WtkCreateWindow (some WtkWindowDesc.zero) Native.allOk Sys.initial).2).toWorld
      = (0, 0, 800, 600) :=
  ⟨((WtkSetWindowSize_spec
      (WtkCreateWindow (some WtkWindowDesc.zero) Native.allOk Sys.initial).2 1 (-1) 600).1
      (Or.inl (by decide))).2.1.trans (by decide),
   (WtkSetWindowSize_spec
      (WtkCreateWindow (some WtkWindowDesc.zero) Native.allOk Sys.initial).2 1 800 600).2
      (by decide) (by decide)⟩

/-- C6: for every window handle and all integers `x`, `y`: if `x < 0` or `y < 0`,
`WtkSetWindowOrigin` returns the state as it was (stored description unchanged, nothing
logged, so no native move call); otherwise the stored position is `(x, y)` right after the
call and every other field of the window (width, height, title, callback, should-close
flag) is as before. -/
theorem WtkSetWindowOrigin_spec (s : Sys) (p : Nat) (x y : Int) :
    (x < 0 ∨ y < 0 →
      WtkSetWindowOrigin (some p) x y s = s) ∧
    (0 ≤ x → 0 ≤ y →
      (WtkSetWindowOrigin (some p) x y s).mem p
        = { s.mem p with desc := { (s.mem p).desc with x := x, y := y } }) := by
  constructor
  · intro hneg
    simp [WtkSetWindowOrigin, hneg]
  · intro hx hy
    have hneg : ¬ (x < 0 ∨ y < 0) := by omega
    simp [WtkSetWindowOrigin, hneg, setWindowOrigin, Sys.poke, Sys.log]

/-- Witness for C6: a rejected origin `(5, -3)` and an accepted origin `(30, 40)` on the
window created from the all-zero description. -/
theorem WtkSetWindowOrigin_spec_witness :
    WtkSetWindowOrigin (some 1) 5 (-3)
      (WtkCreateWindow (some WtkWindowDesc.zero) Native.allOk Sys.initial).2
      = (WtkCreateWindow (some WtkWindowDesc.zero) Native.allOk Sys.initial).2 ∧
    (WtkSetWindowOrigin (some 1) 30 40
      (WtkCreateWindow (some WtkWindowDesc.zero) Native.allOk Sys.initial).2).mem 1
      = { desc := { callback := some Callback.defaultEventCallback, title := some "",
                    x := 30, y := 40, w := 640, h := 480 },
          closed := 0, window := 100, context := 9 } :=
  ⟨(WtkSetWindowOrigin_spec
      (WtkCreateWindow (some WtkWindowDesc.zero) Native.allOk Sys.initial).2 1 5 (-3)).1
      (Or.inr (by decide)),
   ((WtkSetWindowOrigin_spec
      (WtkCreateWindow (some WtkWindowDesc.zero) Native.allOk Sys.initial).2 1 30 40).2
      (by decide) (by decide)).trans (by decide)⟩

/-- C7: `WtkGetWindowShouldClose` returns 1 (true, closed) on a null handle and the stored
`closed` flag on a non-null handle; in particular it returns what
`WtkSetWindowShouldClose` stored last. -/
theorem WtkGetWindowShouldClose_spec (s : Sys) (p : Nat) (v : Int) :
    WtkGetWindowShouldClose none s.toWorld = 1 ∧
    WtkGetWindowShouldClose (some p) s.toWorld = (s.mem p).closed ∧
    WtkGetWindowShouldClose (some p) (WtkSetWindowShouldClose (some p) v s).toWorld = v := by
  simp [WtkGetWindowShouldClose, WtkSetWindowShouldClose, Sys.poke]


/-- The block that a successful `calloc` returns is zero-filled. -/
theorem calloc_zero (n : Native) (s s2 : Sys) (w : Nat) (h : calloc n s = (some w, s2)) :
    s2.mem w = WtkWindow.zero := by
  unfold calloc at h
  split_ifs at h
  · simp only [Prod.mk.injEq, Option.some.injEq] at h
    obtain ⟨hw, hs⟩ := h
    subst hw
    rw [← hs]
    simp
  · simp at h

/-- The backend `createWindow` does not touch the description of its window. -/
theorem createWindow_desc (n : Native) (w : Nat) (s : Sys) :
    ((createWindow n w s).2.mem w).desc = (s.mem w).desc := by
  unfold createWindow
  simp only [Sys.log, Sys.poke]
  split_ifs <;> simp

/-- The description that `validateDesc` leaves in a window. -/
theorem validateDesc_desc (win : WtkWindow) :
    (validateDesc win).desc =
      { callback := some (win.desc.callback.getD Callback.defaultEventCallback),
        title := some (win.desc.title.getD ""),
        x := win.desc.x, y := win.desc.y,
        w := if win.desc.w = 0 then 640 else win.desc.w,
        h := if win.desc.h = 0 then 480 else win.desc.h } := by
  obtain ⟨⟨cb, title, x, y, w, h⟩, closed, xid, ctx⟩ := win
  unfold validateDesc
  cases cb <;> cases title <;> by_cases hw : w = 0 <;> by_cases hh : h = 0 <;>
    simp [hw, hh]

/-- C8: for every description `d` passed to a `WtkCreateWindow` that returns a window, the
description stored in that window has width 640 if `d.w = 0` and `d.w` otherwise, height
480 if `d.h = 0` and `d.h` otherwise (each on its own), a non-null callback (the supplied
one, or `defaultEventCallback` when it was null), a non-null title (the supplied one, or
the empty string when it was null), and `x`, `y` as supplied. -/
theorem WtkCreateWindow_stored_desc (d : WtkWindowDesc) (n : Native) (s : Sys) (p : Nat)
    (h : (WtkCreateWindow (some d) n s).1 = some p) :
    ((WtkCreateWindow (some d) n s).2.mem p).desc =
      { callback := some (d.callback.getD Callback.defaultEventCallback),
        title := some (d.title.getD ""),
        x := d.x, y := d.y,
        w := if d.w = 0 then 640 else d.w,
        h := if d.h = 0 then 480 else d.h } := by
  simp only [WtkCreateWindow] at h ⊢
  generalize (if s.num_windows = 0 then init n s else (true, s)) = r at h ⊢
  obtain ⟨ok, s1⟩ := r
  cases ok
  · simp at h
  · generalize hc : calloc n s1 = c at h ⊢
    obtain ⟨o, s2⟩ := c
    cases o
    · simp at h
    · rename_i w
      dsimp only at h ⊢
      have hz := calloc_zero n s1 s2 w hc
      have hw := createWindow_desc n w
        ((s2.poke w fun w => { w with desc := d }).poke w validateDesc)
      generalize createWindow n w
        ((s2.poke w fun w => { w with desc := d }).poke w validateDesc) = c at h hw ⊢
      obtain ⟨ok, s3⟩ := c
      cases ok
      · simp at h
      · simp only [Bool.not_true, Bool.false_eq_true, if_false, Option.some.injEq] at h ⊢
        subst h
        simp only [] at hw ⊢
        rw [hw]
        simp only [Sys.poke, Function.update_same, validateDesc_desc, hz]

/-- Witness for C8: a description with a caller callback, a title, a zero width and a
height of 200; only the width is defaulted. -/
theorem WtkCreateWindow_stored_desc_witness :
    ((WtkCreateWindow
        (some { callback := some (Callback.user 5), title := some "demo",
                x := 10, y := 20, w := 0, h := 200 })
        Native.allOk Sys.initial).2.mem 1).desc
      = { callback := some (Callback.user 5), title := some "demo",
          x := 10, y := 20, w := 640, h := 200 } :=
  (WtkCreateWindow_stored_desc
    { callback := some (Callback.user 5), title := some "demo",
      x := 10, y := 20, w := 0, h := 200 }
    Native.allOk Sys.initial 1 (by decide)).trans (by decide)


/-! ## The event pump: close and resize notifications -/

/-- The function `postEvent` logs exactly one call: the window's callback, with the event built from
the previous one and the state as it is on entry. -/
theorem postEvent_trace (E : Env) (window : Nat) (type : WtkEventType) (xevent : XEvent)
    (s : Sys) :
    (postEvent E window type xevent s).trace
      = s.trace ++ [Call.callback (s.mem window).desc.callback window
          (buildEvent E s.previousEvent type xevent) s.toWorld] := by
  simp only [postEvent, callCallback, Sys.log]
  split <;> rfl

/-- The function `postEvent` changes the program state only through the caller's callback and by
remembering the event. -/
theorem postEvent_keeps (E : Env) (window : Nat) (type : WtkEventType) (xevent : XEvent)
    (s : Sys)
    (hrun : ∀ f w e x, (E.run f w e x).live = x.live ∧
      (E.run f w e x).num_windows = x.num_windows) :
    (postEvent E window type xevent s).live = s.live ∧
    (postEvent E window type xevent s).num_windows = s.num_windows := by
  simp only [postEvent, callCallback, Sys.log]
  split
  · simp [hrun]
  · simp

/-- The event built by `buildEvent` has the requested type. -/
theorem buildEvent_type (E : Env) (prev : WtkEvent) (type : WtkEventType) (xevent : XEvent) :
    (buildEvent E prev type xevent).type = type := by
  unfold buildEvent
  simp only []
  split_ifs <;> rfl

/-- A property of both branches of a conditional holds of the conditional. -/
theorem ite_holds (P : Sys → Prop) (c : Prop) [Decidable c] (a b : Sys)
    (ha : P a) (hb : P b) : P (if c then a else b) := by
  split_ifs <;> assumption

/-- The switch of `pollEvents` only appends to the log. -/
theorem pollSwitch_trace (E : Env) (window : Nat) (event : XEvent) (s : Sys) :
    ∃ later, (pollSwitch E window event s).trace = s.trace ++ later := by
  unfold pollSwitch
  repeat' apply ite_holds (fun r => ∃ later, r.trace = s.trace ++ later)
  all_goals first
    | exact ⟨_, postEvent_trace E window _ event s⟩
    | exact ⟨[], (List.append_nil _).symm⟩
    | exact ⟨_, postEvent_trace E window _ event _⟩

/-- The event pump only appends to the log. -/
theorem pollEvents_trace (E : Env) (pending : List XEvent) :
    ∀ s : Sys, ∃ later, (pollEvents E pending s).trace = s.trace ++ later := by
  induction pending with
  | nil => intro s; exact ⟨[], by simp [pollEvents]⟩
  | cons event rest ih =>
    intro s
    simp only [pollEvents]
    split
    · exact ih s
    · rename_i window _
      obtain ⟨l1, h1⟩ := pollSwitch_trace E window event s
      obtain ⟨l2, h2⟩ := ih (pollSwitch E window event s)
      exact ⟨l1 ++ l2, by rw [h2, h1, List.append_assoc]⟩

/-- The pump handles the head of the queue first and the rest from the resulting state. -/
theorem pollEvents_cons (E : Env) (event : XEvent) (pending : List XEvent) (s : Sys) :
    pollEvents E (event :: pending) s = pollEvents E pending (pollEvents E [event] s) := by
  simp only [pollEvents]
  split <;> rfl


/-- The switch on a `ClientMessage` that carries `WM_DELETE_WINDOW`. -/
theorem pollSwitch_close (E : Env) (window : Nat) (event : XEvent) (s : Sys)
    (htype : event.type = ClientMessage) (hdel : event.data0 = s.wm_delwin) :
    pollSwitch E window event s
      = postEvent E window WTK_EVENTTYPE_WINDOWCLOSE event
          (WtkSetWindowShouldClose (some window) 1 s) := by
  simp [pollSwitch, htype, hdel, ClientMessage, KeyPress, KeyRelease, ButtonPress,
    ButtonRelease, MotionNotify, EnterNotify, LeaveNotify, MapNotify, UnmapNotify,
    ConfigureNotify]

/-- The switch on a `ConfigureNotify`. -/
theorem pollSwitch_configure (E : Env) (window : Nat) (event : XEvent) (s : Sys)
    (htype : event.type = ConfigureNotify) :
    pollSwitch E window event s
      = postEvent E window WTK_EVENTTYPE_WINDOWRESIZE event
          ((((s.poke window (fun w => { w with desc := { w.desc with x := event.cx } })).poke
            window (fun w => { w with desc := { w.desc with y := event.cy } })).poke
            window (fun w => { w with desc := { w.desc with w := event.width } })).poke
            window (fun w => { w with desc := { w.desc with h := event.height } })) := by
  simp [pollSwitch, htype, KeyPress, KeyRelease, ButtonPress,
    ButtonRelease, MotionNotify, EnterNotify, LeaveNotify, MapNotify, UnmapNotify,
    ConfigureNotify]

/-- C9: when the pump takes a close notification (a `ClientMessage` carrying
`WM_DELETE_WINDOW`) for a registered window, it makes exactly one call for it: the
window's callback with a window-close event.  In the state that callback sees, the
should-close flag of the window is 1, and the list of allocated windows and the
live-window counter are as before the notification.  The events still pending in the same
poll cycle are handled from the resulting state, so their callbacks come later in the
log.  If the caller's callbacks neither create nor delete windows, the allocated windows
and the counter are also unchanged after the notification. -/
theorem close_notification (E : Env) (s : Sys) (event : XEvent) (pending : List XEvent)
    (window : Nat)
    (hreg : s.xcontext event.window = some window)
    (htype : event.type = ClientMessage) (hdel : event.data0 = s.wm_delwin) :
    ∃ ev seen,
      (pollEvents E [event] s).trace
        = s.trace ++ [Call.callback (s.mem window).desc.callback window ev seen] ∧
      ev.type = WTK_EVENTTYPE_WINDOWCLOSE ∧
      WtkGetWindowShouldClose (some window) seen = 1 ∧
      seen.live = s.live ∧
      seen.num_windows = s.num_windows ∧
      pollEvents E (event :: pending) s = pollEvents E pending (pollEvents E [event] s) ∧
      (∃ later, (pollEvents E (event :: pending) s).trace
        = s.trace ++ Call.callback (s.mem window).desc.callback window ev seen :: later) ∧
      ((∀ f w e x, (E.run f w e x).live = x.live ∧
          (E.run f w e x).num_windows = x.num_windows) →
        (pollEvents E [event] s).live = s.live ∧
        (pollEvents E [event] s).num_windows = s.num_windows) := by
  have hone : pollEvents E [event] s
      = postEvent E window WTK_EVENTTYPE_WINDOWCLOSE event
          (WtkSetWindowShouldClose (some window) 1 s) := by
    simp only [pollEvents, hreg]
    exact pollSwitch_close E window event s htype hdel
  have htr : (pollEvents E [event] s).trace
      = s.trace ++ [Call.callback (s.mem window).desc.callback window
          (buildEvent E s.previousEvent WTK_EVENTTYPE_WINDOWCLOSE event)
          (WtkSetWindowShouldClose (some window) 1 s).toWorld] := by
    rw [hone, postEvent_trace]
    simp [WtkSetWindowShouldClose, Sys.poke]
  refine ⟨buildEvent E s.previousEvent WTK_EVENTTYPE_WINDOWCLOSE event,
    (WtkSetWindowShouldClose (some window) 1 s).toWorld, htr, buildEvent_type _ _ _ _,
    ?_, rfl, rfl, pollEvents_cons E event pending s, ?_, ?_⟩
  · simp [WtkGetWindowShouldClose, WtkSetWindowShouldClose, Sys.poke]
  · obtain ⟨later, hl⟩ := pollEvents_trace E pending (pollEvents E [event] s)
    refine ⟨later, ?_⟩
    rw [pollEvents_cons, hl, htr]
    simp
  · intro hrun
    rw [hone]
    exact postEvent_keeps E window _ event _ hrun

/-- C10: when the pump takes a resize notification (`ConfigureNotify`) for a registered
window, it makes exactly one call for it: the window's callback with a window-resize
event, and in the state that callback sees `WtkGetWindowRect` on the window already
reports the position and the width and height carried by the notification. -/
theorem resize_notification (E : Env) (s : Sys) (event : XEvent) (window : Nat)
    (hreg : s.xcontext event.window = some window)
    (htype : event.type = ConfigureNotify) :
    ∃ ev seen,
      (pollEvents E [event] s).trace
        = s.trace ++ [Call.callback (s.mem window).desc.callback window ev seen] ∧
      ev.type = WTK_EVENTTYPE_WINDOWRESIZE ∧
      WtkGetWindowRect (some window) seen
        = (event.cx, event.cy, event.width, event.height) := by
  refine ⟨buildEvent E s.previousEvent WTK_EVENTTYPE_WINDOWRESIZE event,
    ((((s.poke window (fun w => { w with desc := { w.desc with x := event.cx } })).poke
      window (fun w => { w with desc := { w.desc with y := event.cy } })).poke
      window (fun w => { w with desc := { w.desc with w := event.width } })).poke
      window (fun w => { w with desc := { w.desc with h := event.height } })).toWorld,
    ?_, buildEvent_type _ _ _ _, ?_⟩
  · simp only [pollEvents, hreg]
    rw [pollSwitch_configure E window event s htype, postEvent_trace]
    simp [Sys.poke]
  · simp [WtkGetWindowRect, Sys.poke]

/-- Witness for C9: the window created from the all-zero description (X id 100, with
`WM_DELETE_WINDOW` interned as atom 7) receives the close message, followed in the same
cycle by a map notification. -/
theorem close_notification_witness :
    ∃ ev seen,
      (pollEvents Env.sample [{ XEvent.blank ClientMessage 100 with data0 := 7 }]
        (WtkCreateWindow (some WtkWindowDesc.zero) Native.allOk Sys.initial).2).trace
        = (WtkCreateWindow (some WtkWindowDesc.zero) Native.allOk Sys.initial).2.trace
          ++ [Call.callback (some Callback.defaultEventCallback) 1 ev seen] ∧
      ev.type = WTK_EVENTTYPE_WINDOWCLOSE ∧
      WtkGetWindowShouldClose (some 1) seen = 1 :=
  have h := close_notification Env.sample
    (WtkCreateWindow (some WtkWindowDesc.zero) Native.allOk Sys.initial).2
    { XEvent.blank ClientMessage 100 with data0 := 7 } [XEvent.blank MapNotify 100] 1
    (by decide) (by decide) (by decide)
  h.elim fun ev h => h.elim fun seen h => ⟨ev, seen, h.1, h.2.1, h.2.2.1⟩

/-- Witness for C10: the window created from the all-zero description (X id 100) is
resized to 800 by 600. -/
theorem resize_notification_witness :
    ∃ ev seen,
      (pollEvents Env.sample
        [{ XEvent.blank ConfigureNotify 100 with width := 800, height := 600 }]
        (WtkCreateWindow (some WtkWindowDesc.zero) Native.allOk Sys.initial).2).trace
        = (WtkCreateWindow (some WtkWindowDesc.zero) Native.allOk Sys.initial).2.trace
          ++ [Call.callback (some Callback.defaultEventCallback) 1 ev seen] ∧
      ev.type = WTK_EVENTTYPE_WINDOWRESIZE ∧
      WtkGetWindowRect (some 1) seen = (0, 0, 800, 600) :=
  resize_notification Env.sample
    (WtkCreateWindow (some WtkWindowDesc.zero) Native.allOk Sys.initial).2
    { XEvent.blank ConfigureNotify 100 with width := 800, height := 600 } 1
    (by decide) (by decide)


/-! ## The event pump: what is posted, and with which event -/

/-- The switch of `pollEvents` posts the event under the kind `dispatchType` names, after
the stores of `beforePost`, and does nothing where `dispatchType` names no kind. -/
theorem pollSwitch_eq (E : Env) (window : Nat) (event : XEvent) (s : Sys) :
    pollSwitch E window event s =
      match dispatchType s.wm_delwin event with
      | none => s
      | some t => postEvent E window t event (beforePost window event s) := by
  by_cases h0 : event.type = KeyPress
  · simp [pollSwitch, dispatchType, beforePost, h0,
      KeyPress, KeyRelease, ButtonPress, ButtonRelease, MotionNotify, EnterNotify,
      LeaveNotify, MapNotify, UnmapNotify, ConfigureNotify, ClientMessage]
  by_cases h1 : event.type = KeyRelease
  · simp [pollSwitch, dispatchType, beforePost, h1,
      KeyPress, KeyRelease, ButtonPress, ButtonRelease, MotionNotify, EnterNotify,
      LeaveNotify, MapNotify, UnmapNotify, ConfigureNotify, ClientMessage]
  by_cases h2 : event.type = ButtonPress
  · simp [pollSwitch, dispatchType, beforePost, h2,
      KeyPress, KeyRelease, ButtonPress, ButtonRelease, MotionNotify, EnterNotify,
      LeaveNotify, MapNotify, UnmapNotify, ConfigureNotify, ClientMessage]
  by_cases h3 : event.type = ButtonRelease
  · simp [pollSwitch, dispatchType, beforePost, h3,
      KeyPress, KeyRelease, ButtonPress, ButtonRelease, MotionNotify, EnterNotify,
      LeaveNotify, MapNotify, UnmapNotify, ConfigureNotify, ClientMessage]
  by_cases h4 : event.type = MotionNotify
  · simp [pollSwitch, dispatchType, beforePost, h4,
      KeyPress, KeyRelease, ButtonPress, ButtonRelease, MotionNotify, EnterNotify,
      LeaveNotify, MapNotify, UnmapNotify, ConfigureNotify, ClientMessage]
  by_cases h5 : event.type = EnterNotify
  · simp [pollSwitch, dispatchType, beforePost, h5,
      KeyPress, KeyRelease, ButtonPress, ButtonRelease, MotionNotify, EnterNotify,
      LeaveNotify, MapNotify, UnmapNotify, ConfigureNotify, ClientMessage]
  by_cases h6 : event.type = LeaveNotify
  · simp [pollSwitch, dispatchType, beforePost, h6,
      KeyPress, KeyRelease, ButtonPress, ButtonRelease, MotionNotify, EnterNotify,
      LeaveNotify, MapNotify, UnmapNotify, ConfigureNotify, ClientMessage]
  by_cases h7 : event.type = MapNotify
  · simp [pollSwitch, dispatchType, beforePost, h7,
      KeyPress, KeyRelease, ButtonPress, ButtonRelease, MotionNotify, EnterNotify,
      LeaveNotify, MapNotify, UnmapNotify, ConfigureNotify, ClientMessage]
  by_cases h8 : event.type = UnmapNotify
  · simp [pollSwitch, dispatchType, beforePost, h8,
      KeyPress, KeyRelease, ButtonPress, ButtonRelease, MotionNotify, EnterNotify,
      LeaveNotify, MapNotify, UnmapNotify, ConfigureNotify, ClientMessage]
  by_cases h9 : event.type = ConfigureNotify
  · simp [pollSwitch, dispatchType, beforePost, h9,
      KeyPress, KeyRelease, ButtonPress, ButtonRelease, MotionNotify, EnterNotify,
      LeaveNotify, MapNotify, UnmapNotify, ConfigureNotify, ClientMessage]
  by_cases h10 : event.type = ClientMessage
  · by_cases hd : event.data0 = s.wm_delwin
    · simp [pollSwitch, dispatchType, beforePost, h10, hd,
        KeyPress, KeyRelease, ButtonPress, ButtonRelease, MotionNotify, EnterNotify,
        LeaveNotify, MapNotify, UnmapNotify, ConfigureNotify, ClientMessage]
    · simp [pollSwitch, dispatchType, beforePost, h10, hd,
        KeyPress, KeyRelease, ButtonPress, ButtonRelease, MotionNotify, EnterNotify,
        LeaveNotify, MapNotify, UnmapNotify, ConfigureNotify, ClientMessage]
  simp [pollSwitch, dispatchType, h0, h1, h2, h3, h4, h5, h6, h7, h8, h9, h10]


/-- The stores made before posting touch neither the log, the previous event, the
association table nor the atom. -/
theorem beforePost_keeps (window : Nat) (event : XEvent) (s : Sys) :
    (beforePost window event s).trace = s.trace ∧
    (beforePost window event s).previousEvent = s.previousEvent ∧
    (beforePost window event s).xcontext = s.xcontext ∧
    (beforePost window event s).wm_delwin = s.wm_delwin ∧
    ((beforePost window event s).mem window).desc.callback
      = (s.mem window).desc.callback := by
  unfold beforePost
  split_ifs <;> simp [Sys.poke, WtkSetWindowShouldClose]

/-- After `postEvent` the remembered previous event is the event just posted. -/
theorem postEvent_previousEvent (E : Env) (window : Nat) (type : WtkEventType)
    (xevent : XEvent) (s : Sys) :
    (postEvent E window type xevent s).previousEvent
      = buildEvent E s.previousEvent type xevent := by
  simp [postEvent]

/-- The callback invocations of a log followed by another log. -/
theorem callbacks_append (t u : List Call) :
    callbacks (t ++ u) = callbacks t ++ callbacks u := by
  induction t with
  | nil => rfl
  | cons c t ih => cases c <;> simp [callbacks, ih]

/-- The pump on a one-event queue whose window is registered is the switch. -/
theorem pollEvents_one (E : Env) (event : XEvent) (s : Sys) (window : Nat)
    (hreg : s.xcontext event.window = some window) :
    pollEvents E [event] s = pollSwitch E window event s := by
  simp [pollEvents, hreg]

/-- The pump on a one-event queue whose window is not registered does nothing. -/
theorem pollEvents_one_unregistered (E : Env) (event : XEvent) (s : Sys)
    (hreg : s.xcontext event.window = none) :
    pollEvents E [event] s = s := by
  simp [pollEvents, hreg]

/-- A registered event that the switch posts under kind `t`: the one call logged, and the
previous event remembered afterwards. -/
theorem pollEvents_one_posted (E : Env) (event : XEvent) (s : Sys) (window : Nat)
    (t : WtkEventType)
    (hreg : s.xcontext event.window = some window)
    (hd : dispatchType s.wm_delwin event = some t) :
    (pollEvents E [event] s).trace
      = s.trace ++ [Call.callback (s.mem window).desc.callback window
          (buildEvent E s.previousEvent t event) (beforePost window event s).toWorld] ∧
    (pollEvents E [event] s).previousEvent = buildEvent E s.previousEvent t event := by
  have hb := beforePost_keeps window event s
  rw [pollEvents_one E event s window hreg, pollSwitch_eq, hd]
  simp only []
  rw [postEvent_trace, postEvent_previousEvent, hb.1, hb.2.1, hb.2.2.2.2]
  exact ⟨rfl, rfl⟩

/-- The pump on a queue in two parts handles the first part, then the second. -/
theorem pollEvents_append (E : Env) (a b : List XEvent) :
    ∀ s : Sys, pollEvents E (a ++ b) s = pollEvents E b (pollEvents E a s) := by
  induction a with
  | nil => intro s; rfl
  | cons e a ih =>
    intro s
    simp only [List.cons_append, pollEvents]
    split
    · exact ih s
    · exact ih _

/-- Events that are owed no callback leave the state as it is. -/
theorem pollEvents_skip (E : Env) (mid : List XEvent) (s : Sys)
    (hmid : ∀ x ∈ mid, owedCallback s.toWorld x = none) :
    pollEvents E mid s = s := by
  induction mid with
  | nil => rfl
  | cons x mid ih =>
    have hx := hmid x (List.mem_cons_self _ _)
    have hrest : ∀ y ∈ mid, owedCallback s.toWorld y = none :=
      fun y hy => hmid y (List.mem_cons_of_mem _ hy)
    simp only [pollEvents]
    cases hreg : s.xcontext x.window with
    | none => exact ih hrest
    | some w =>
      simp only []
      have hd : dispatchType s.wm_delwin x = none := by
        simp only [owedCallback, hreg] at hx
        cases hdt : dispatchType s.wm_delwin x with
        | none => rfl
        | some t => simp [hdt] at hx
      rw [pollSwitch_eq, hd]
      exact ih hrest

/-- The kind under which a pointer-motion event is posted. -/
theorem dispatchType_motion (wm_delwin : Nat) (event : XEvent)
    (ht : event.type = MotionNotify) :
    dispatchType wm_delwin event = some WTK_EVENTTYPE_MOUSEMOTION := by
  simp [dispatchType, ht, MotionNotify, KeyPress, KeyRelease, ButtonPress, ButtonRelease]

/-- A motion event built by `buildEvent`: the pointer position and its difference from the
position of the previous event. -/
theorem buildEvent_motion (E : Env) (prev : WtkEvent) (xevent : XEvent) :
    (buildEvent E prev WTK_EVENTTYPE_MOUSEMOTION xevent).location
      = { x := xevent.x, y := xevent.y } ∧
    (buildEvent E prev WTK_EVENTTYPE_MOUSEMOTION xevent).delta
      = { x := xevent.x - prev.location.x, y := xevent.y - prev.location.y } := by
  simp [buildEvent]

/-- C11: when two pointer-motion events for registered windows are posted one right after
the other (the events between them in the queue, if any, are owed no callback), at window
coordinates `(x1, y1)` and then `(x2, y2)`, exactly two callbacks are made; the second
event is a mouse-motion event with location `(x2, y2)` and delta `(x2 - x1, y2 - y1)`. -/
theorem consecutive_motion_delta (E : Env) (s : Sys) (e1 e2 : XEvent) (mid : List XEvent)
    (w1 w2 : Nat)
    (ht1 : e1.type = MotionNotify) (ht2 : e2.type = MotionNotify)
    (hr1 : s.xcontext e1.window = some w1)
    (hmid : ∀ x ∈ mid, owedCallback (pollEvents E [e1] s).toWorld x = none)
    (hr2 : (pollEvents E [e1] s).xcontext e2.window = some w2) :
    ∃ ev1 ev2,
      callbacks (pollEvents E (e1 :: mid ++ [e2]) s).trace
        = callbacks s.trace ++ [(w1, ev1), (w2, ev2)] ∧
      ev1.type = WTK_EVENTTYPE_MOUSEMOTION ∧
      ev1.location = { x := e1.x, y := e1.y } ∧
      ev2.type = WTK_EVENTTYPE_MOUSEMOTION ∧
      ev2.location = { x := e2.x, y := e2.y } ∧
      ev2.delta = { x := e2.x - e1.x, y := e2.y - e1.y } := by
  have h1 := pollEvents_one_posted E e1 s w1 _ hr1 (dispatchType_motion _ e1 ht1)
  have h2 := pollEvents_one_posted E e2 (pollEvents E [e1] s) w2 _ hr2
    (dispatchType_motion _ e2 ht2)
  have hm1 := buildEvent_motion E s.previousEvent e1
  have hm2 := buildEvent_motion E (pollEvents E [e1] s).previousEvent e2
  have hq : pollEvents E (e1 :: mid ++ [e2]) s
      = pollEvents E [e2] (pollEvents E [e1] s) := by
    rw [List.cons_append, pollEvents_cons, pollEvents_append,
      pollEvents_skip E mid _ hmid]
  refine ⟨buildEvent E s.previousEvent WTK_EVENTTYPE_MOUSEMOTION e1,
    buildEvent E (pollEvents E [e1] s).previousEvent WTK_EVENTTYPE_MOUSEMOTION e2,
    ?_, buildEvent_type _ _ _ _, hm1.1, buildEvent_type _ _ _ _, hm2.1, ?_⟩
  · rw [hq, h2.1, h1.1]
    simp [callbacks_append, callbacks]
  · rw [hm2.2, h1.2, hm1.1]

/-- Witness for C11: motion at (10, 10) and then at (15, 12) in the one-window state, with
an `Expose` event between them in the queue. -/
theorem consecutive_motion_delta_witness :
    ∃ ev1 ev2,
      callbacks (pollEvents Env.sample
        (XEvent.motionAt 10 10 :: [XEvent.blank Expose 100] ++ [XEvent.motionAt 15 12])
        Sys.oneWindow).trace = callbacks Sys.oneWindow.trace ++ [(1, ev1), (1, ev2)] ∧
      ev2.location = { x := 15, y := 12 } ∧
      ev2.delta = { x := 5, y := 2 } :=
  have h := consecutive_motion_delta Env.sample Sys.oneWindow
    (XEvent.motionAt 10 10) (XEvent.motionAt 15 12) [XEvent.blank Expose 100] 1 1
    (by decide) (by decide) (by decide) (by decide) (by decide)
  h.elim fun ev1 h => h.elim fun ev2 h => ⟨ev1, ev2, h.1, h.2.2.2.2.1, h.2.2.2.2.2⟩

/-! ## Key codes -/

/-- The conversion to `int` leaves a value below `2^31` as it is. -/
theorem toInt32_of_lt (n : Nat) (h : n < 2147483648) : toInt32 (n : Int) = n := by
  unfold toInt32
  omega

/-- The `switch` of `translateKeyCode` is the lookup in `keyTable`. -/
theorem translateKeyCode_eq_lookup (E : Env) (xkey state : Nat) :
    translateKeyCode E xkey state
      = tableLookup (keyTable E.K) (toInt32 (keysymOf E xkey state)) := by
  rfl

/-- A symbol that is the key of no entry passes through the lookup. -/
theorem tableLookup_absent (table : List (Int × Int)) (sym : Int)
    (h : ∀ p ∈ table, sym ≠ p.1) : tableLookup table sym = sym := by
  induction table with
  | nil => rfl
  | cons p rest ih =>
    obtain ⟨k, v⟩ := p
    have hk : sym ≠ k := h (k, v) (List.mem_cons_self _ _)
    simp only [tableLookup, hk, if_false]
    exact ih (fun q hq => h q (List.mem_cons_of_mem _ hq))

/-- In a table without repeated keys, the lookup of the key of an entry gives that entry's
value. -/
theorem tableLookup_present (table : List (Int × Int))
    (hnd : (table.map Prod.fst).Nodup) (p : Int × Int) (hp : p ∈ table) :
    tableLookup table p.1 = p.2 := by
  induction table with
  | nil => simp at hp
  | cons q rest ih =>
    obtain ⟨k, v⟩ := q
    simp only [List.map_cons, List.nodup_cons, List.mem_map, not_exists, not_and] at hnd
    rcases List.mem_cons.mp hp with h | h
    · subst h
      simp [tableLookup]
    · have hne : p.1 ≠ k := fun e => hnd.1 p h e
      simp only [tableLookup, hne, if_false]
      exact ih hnd.2 h

/-- The native key symbols of the table, whatever the missing constants are. -/
theorem keyTable_keys (K : MissingConsts) :
    (keyTable K).map Prod.fst =
      [XK_BackSpace, XK_Tab, XK_Return, XK_Escape, XK_Up, XK_Down, XK_Left, XK_Right,
       XK_Page_Up, XK_Page_Down, XK_Home, XK_End, XK_Insert, XK_Delete,
       XK_F1, XK_F2, XK_F3, XK_F4, XK_F5, XK_F6, XK_F7, XK_F8, XK_F9, XK_F10, XK_F11,
       XK_F12, XK_Shift_L, XK_Shift_R, XK_Control_L, XK_Control_R, XK_Super_L,
       XK_Super_R, XK_Alt_L, XK_Alt_R, XK_Caps_Lock] := by
  rfl

/-- No key symbol occurs twice in the table. -/
theorem keyTable_nodup (K : MissingConsts) : ((keyTable K).map Prod.fst).Nodup := by
  rw [keyTable_keys]
  decide

/-- Every key symbol of the table is above the Latin-1 range. -/
theorem keyTable_keys_large (K : MissingConsts) :
    ∀ p ∈ keyTable K, (0xff00 : Int) ≤ p.1 := by
  intro p hp
  have hm : p.1 ∈ (keyTable K).map Prod.fst := List.mem_map_of_mem _ hp
  rw [keyTable_keys] at hm
  revert hm
  generalize p.1 = k
  revert k
  decide


/-- C12: `translateKeyCode` is the lookup of the key symbol in the key table (arrows,
F1-F12, left and right shift, ctrl, alt, super, caps-lock, backspace, tab, enter, escape,
page up and down, home, end, insert, delete).  No symbol occurs twice in the table; a
symbol of the table gives the canonical constant paired with it; a symbol outside the
table is returned unchanged; in particular a printable ASCII symbol (32 to 126) gives its
own character code.  Key symbols are taken below `2^31`, so that they fit the `int` they
are stored in (the X protocol defines them as 29-bit values). -/
theorem translateKeyCode_table (E : Env) (xkey state : Nat)
    (hk : keysymOf E xkey state < 2147483648) :
    translateKeyCode E xkey state
      = tableLookup (keyTable E.K) (keysymOf E xkey state : Int) ∧
    ((keyTable E.K).map Prod.fst).Nodup ∧
    (∀ p ∈ keyTable E.K, (keysymOf E xkey state : Int) = p.1 →
      translateKeyCode E xkey state = p.2) ∧
    ((∀ p ∈ keyTable E.K, (keysymOf E xkey state : Int) ≠ p.1) →
      translateKeyCode E xkey state = keysymOf E xkey state) ∧
    (32 ≤ keysymOf E xkey state → keysymOf E xkey state ≤ 126 →
      translateKeyCode E xkey state = keysymOf E xkey state) := by
  have heq : translateKeyCode E xkey state
      = tableLookup (keyTable E.K) (keysymOf E xkey state : Int) := by
    rw [translateKeyCode_eq_lookup, toInt32_of_lt _ hk]
  refine ⟨heq, keyTable_nodup E.K, ?_, ?_, ?_⟩
  · intro p hp hsym
    rw [heq, hsym]
    exact tableLookup_present _ (keyTable_nodup E.K) p hp
  · intro habs
    rw [heq]
    exact tableLookup_absent _ _ habs
  · intro hlo hhi
    rw [heq]
    apply tableLookup_absent
    intro p hp
    have := keyTable_keys_large E.K p hp
    omega

/-- Witness for C12: with the sample keyboard, the up arrow (key code 111) gives
`WTK_KEY_UP` and the letter a (key code 38) gives its character code 0x61. -/
theorem translateKeyCode_table_witness :
    translateKeyCode Env.keyboard 111 0 = WTK_KEY_UP ∧
    translateKeyCode Env.keyboard 38 0 = 0x61 :=
  ⟨(translateKeyCode_table Env.keyboard 111 0 (by decide)).2.2.1 (XK_Up, WTK_KEY_UP)
      (by decide) (by decide),
   (translateKeyCode_table Env.keyboard 38 0 (by decide)).2.2.2.2 (by decide) (by decide)⟩


/-! ## Modifier masks -/

/-- Testing a number against a one-bit mask is testing that bit. -/
theorem land_two_pow_ne_zero (n i : Nat) : n &&& 2 ^ i ≠ 0 ↔ n.testBit i = true := by
  rw [Nat.land_comm, Nat.two_pow_and]
  cases n.testBit i <;> simp

/-- The bits of the mask that `translateState` returns, when the caps-lock constant is the
bit `k`. -/
theorem translateState_testBit (E : Env) (k : Nat) (hcaps : E.K.WTK_MOD_CAPSLOCK = 2 ^ k)
    (state j : Nat) :
    (translateState E state).testBit j =
      ((decide (j = 1) && state.testBit 2) || (decide (j = 0) && state.testBit 0) ||
       (decide (j = 2) && state.testBit 3) || (decide (j = 3) && state.testBit 6) ||
       (decide (j = k) && state.testBit 1)) := by
  have c4 : state &&& 4 ≠ 0 ↔ state.testBit 2 = true := land_two_pow_ne_zero state 2
  have c1 : state &&& 1 ≠ 0 ↔ state.testBit 0 = true := land_two_pow_ne_zero state 0
  have c8 : state &&& 8 ≠ 0 ↔ state.testBit 3 = true := land_two_pow_ne_zero state 3
  have c64 : state &&& 64 ≠ 0 ↔ state.testBit 6 = true := land_two_pow_ne_zero state 6
  have c2 : state &&& 2 ≠ 0 ↔ state.testBit 1 = true := land_two_pow_ne_zero state 1
  have t1 : Nat.testBit WTK_MOD_SHIFT j = decide (0 = j) := @Nat.testBit_two_pow 0 j
  have t2 : Nat.testBit WTK_MOD_CTRL j = decide (1 = j) := @Nat.testBit_two_pow 1 j
  have t4 : Nat.testBit WTK_MOD_ALT j = decide (2 = j) := @Nat.testBit_two_pow 2 j
  have t8 : Nat.testBit WTK_MOD_SUPER j = decide (3 = j) := @Nat.testBit_two_pow 3 j
  have tk : Nat.testBit (2 ^ k) j = decide (k = j) := Nat.testBit_two_pow
  simp only [translateState, ControlMask, ShiftMask, Mod1Mask, Mod4Mask, LockMask,
    hcaps, c4, c1, c8, c64, c2]
  cases state.testBit 2 <;> cases state.testBit 0 <;> cases state.testBit 3 <;>
    cases state.testBit 6 <;> cases state.testBit 1 <;>
    simp [Nat.testBit_or, t1, t2, t4, t8, tk, eq_comm]


/-- The modifier mask that `buildEvent` puts into a key, button or motion event is
`translateState` of the native state. -/
theorem buildEvent_modifiers (E : Env) (prev : WtkEvent) (type : WtkEventType)
    (xevent : XEvent)
    (ht : type = WTK_EVENTTYPE_KEYDOWN ∨ type = WTK_EVENTTYPE_KEYUP ∨
      type = WTK_EVENTTYPE_MOUSEDOWN ∨ type = WTK_EVENTTYPE_MOUSEUP ∨
      type = WTK_EVENTTYPE_MOUSEMOTION) :
    (buildEvent E prev type xevent).modifiers = translateState E xevent.state := by
  rcases ht with h | h | h | h | h <;> subst h <;> simp [buildEvent]

/-- If two native states agree on the five modifier masks, they agree on the bits 0, 1, 2,
3 and 6. -/
theorem agree_on_masks (a b : Nat)
    (h : a &&& (ShiftMask ||| LockMask ||| ControlMask ||| Mod1Mask ||| Mod4Mask)
      = b &&& (ShiftMask ||| LockMask ||| ControlMask ||| Mod1Mask ||| Mod4Mask)) :
    a.testBit 0 = b.testBit 0 ∧ a.testBit 1 = b.testBit 1 ∧ a.testBit 2 = b.testBit 2 ∧
    a.testBit 3 = b.testBit 3 ∧ a.testBit 6 = b.testBit 6 := by
  have key : ∀ i, (a &&& 79).testBit i = (b &&& 79).testBit i := fun i => by
    have h' : a &&& 79 = b &&& 79 := h
    rw [h']
  have e0 : Nat.testBit 79 0 = true := by decide
  have e1 : Nat.testBit 79 1 = true := by decide
  have e2 : Nat.testBit 79 2 = true := by decide
  have e3 : Nat.testBit 79 3 = true := by decide
  have e6 : Nat.testBit 79 6 = true := by decide
  have k0 := key 0
  have k1 := key 1
  have k2 := key 2
  have k3 := key 3
  have k6 := key 6
  rw [Nat.testBit_and, Nat.testBit_and] at k0 k1 k2 k3 k6
  rw [e0, Bool.and_true, Bool.and_true] at k0
  rw [e1, Bool.and_true, Bool.and_true] at k1
  rw [e2, Bool.and_true, Bool.and_true] at k2
  rw [e3, Bool.and_true, Bool.and_true] at k3
  rw [e6, Bool.and_true, Bool.and_true] at k6
  exact ⟨k0, k1, k2, k3, k6⟩

/-- C13: for every native modifier state, the mask returned by `translateState` (which is
the mask carried by every key, button and motion event) has the canonical shift, ctrl,
alt, super and caps-lock bit set exactly when the native `ShiftMask`, `ControlMask`,
`Mod1Mask`, `Mod4Mask` and `LockMask` bit is set; it has no bit outside these five; and
two native states that agree on the five native masks give the same result.  The header
does not declare the caps-lock constant: it is taken to be a single bit `2 ^ k` other than
the four declared ones (`4 ≤ k`). -/
theorem translateState_bits (E : Env) (k : Nat) (hk : 4 ≤ k)
    (hcaps : E.K.WTK_MOD_CAPSLOCK = 2 ^ k) (state : Nat) :
    (translateState E state &&& WTK_MOD_SHIFT ≠ 0 ↔ state &&& ShiftMask ≠ 0) ∧
    (translateState E state &&& WTK_MOD_CTRL ≠ 0 ↔ state &&& ControlMask ≠ 0) ∧
    (translateState E state &&& WTK_MOD_ALT ≠ 0 ↔ state &&& Mod1Mask ≠ 0) ∧
    (translateState E state &&& WTK_MOD_SUPER ≠ 0 ↔ state &&& Mod4Mask ≠ 0) ∧
    (translateState E state &&& E.K.WTK_MOD_CAPSLOCK ≠ 0 ↔ state &&& LockMask ≠ 0) ∧
    translateState E state &&&
        (WTK_MOD_SHIFT ||| WTK_MOD_CTRL ||| WTK_MOD_ALT ||| WTK_MOD_SUPER |||
          E.K.WTK_MOD_CAPSLOCK)
      = translateState E state ∧
    (∀ state' : Nat,
      state' &&& (ShiftMask ||| LockMask ||| ControlMask ||| Mod1Mask ||| Mod4Mask)
        = state &&& (ShiftMask ||| LockMask ||| ControlMask ||| Mod1Mask ||| Mod4Mask) →
      translateState E state' = translateState E state) ∧
    (∀ (prev : WtkEvent) (xevent : XEvent) (type : WtkEventType),
      type = WTK_EVENTTYPE_KEYDOWN ∨ type = WTK_EVENTTYPE_KEYUP ∨
        type = WTK_EVENTTYPE_MOUSEDOWN ∨ type = WTK_EVENTTYPE_MOUSEUP ∨
        type = WTK_EVENTTYPE_MOUSEMOTION →
      (buildEvent E prev type xevent).modifiers = translateState E xevent.state) := by
  have hb := translateState_testBit E k hcaps
  have k0 : ¬ (0 = k) := by omega
  have k1 : ¬ (1 = k) := by omega
  have k2 : ¬ (2 = k) := by omega
  have k3 : ¬ (3 = k) := by omega
  have k0' : ¬ (k = 0) := by omega
  have k1' : ¬ (k = 1) := by omega
  have k2' : ¬ (k = 2) := by omega
  have k3' : ¬ (k = 3) := by omega
  have q0 : (translateState E state).testBit 0 = state.testBit 0 := by
    rw [hb]; simp [k0]
  have q1 : (translateState E state).testBit 1 = state.testBit 2 := by
    rw [hb]; simp [k1]
  have q2 : (translateState E state).testBit 2 = state.testBit 3 := by
    rw [hb]; simp [k2]
  have q3 : (translateState E state).testBit 3 = state.testBit 6 := by
    rw [hb]; simp [k3]
  have qk : (translateState E state).testBit k = state.testBit 1 := by
    rw [hb]; simp [k0', k1', k2', k3']
  have s0 := land_two_pow_ne_zero (translateState E state) 0
  have s1 := land_two_pow_ne_zero (translateState E state) 1
  have s2 := land_two_pow_ne_zero (translateState E state) 2
  have s3 := land_two_pow_ne_zero (translateState E state) 3
  have sk := land_two_pow_ne_zero (translateState E state) k
  have n0 := land_two_pow_ne_zero state 0
  have n1 := land_two_pow_ne_zero state 1
  have n2 := land_two_pow_ne_zero state 2
  have n3 := land_two_pow_ne_zero state 3
  have n6 := land_two_pow_ne_zero state 6
  rw [q0] at s0
  rw [q1] at s1
  rw [q2] at s2
  rw [q3] at s3
  rw [qk] at sk
  refine ⟨s0.trans n0.symm, s1.trans n2.symm, s2.trans n3.symm, s3.trans n6.symm, ?_,
    ?_, ?_, ?_⟩
  · rw [hcaps]
    exact sk.trans n1.symm
  · apply Nat.eq_of_testBit_eq
    intro j
    have t1 : Nat.testBit WTK_MOD_SHIFT j = decide (0 = j) := @Nat.testBit_two_pow 0 j
    have t2 : Nat.testBit WTK_MOD_CTRL j = decide (1 = j) := @Nat.testBit_two_pow 1 j
    have t4 : Nat.testBit WTK_MOD_ALT j = decide (2 = j) := @Nat.testBit_two_pow 2 j
    have t8 : Nat.testBit WTK_MOD_SUPER j = decide (3 = j) := @Nat.testBit_two_pow 3 j
    have tk : Nat.testBit (2 ^ k) j = decide (k = j) := Nat.testBit_two_pow
    rw [Nat.testBit_and, hb, hcaps]
    simp only [Nat.testBit_or, t1, t2, t4, t8, tk]
    by_cases h0 : j = 0 <;> by_cases h1 : j = 1 <;> by_cases h2 : j = 2 <;>
      by_cases h3 : j = 3 <;> by_cases h4 : j = k <;>
      simp [h0, h1, h2, h3, h4, eq_comm]
  · intro state' hagree
    obtain ⟨a0, a1, a2, a3, a6⟩ := agree_on_masks state' state hagree
    apply Nat.eq_of_testBit_eq
    intro j
    rw [hb, hb, a0, a1, a2, a3, a6]
  · intro prev xevent type ht
    exact buildEvent_modifiers E prev type xevent ht

/-- Witness for C13: in the sample environment (caps-lock constant 16) the native state
`ShiftMask | LockMask | Mod4Mask | Button1Mask` (1 + 2 + 64 + 256) gives shift, super and
caps-lock (1 + 8 + 16). -/
theorem translateState_bits_witness :
    translateState Env.sample 323 &&& WTK_MOD_SHIFT ≠ 0 ∧
    translateState Env.sample 323 &&&
        (WTK_MOD_SHIFT ||| WTK_MOD_CTRL ||| WTK_MOD_ALT ||| WTK_MOD_SUPER |||
          Env.sample.K.WTK_MOD_CAPSLOCK)
      = translateState Env.sample 323 ∧
    translateState Env.sample 323 = 25 :=
  have h := translateState_bits Env.sample 4 (by decide) (by decide) 323
  ⟨h.1.mpr (by decide), h.2.2.2.2.2.1, by decide⟩


/-! ## Mouse buttons -/

/-- C14 at its failing input: a press of the wheel-up button (button 4) at (10, 20) in the
one-window state, the previous position being (0, 0).  One event reaches the callback: it
is a mouse-down event, not a mouse-scroll event, and its delta is (10, 20), the pointer
position minus the previous one, not the scroll delta (0, 1).  A release of button 7 at
the same place gives a mouse-up event with delta (10, 20) as well. -/
theorem wheel_button_posted_as_press :
    callbacks (pollEvents Env.sample [XEvent.buttonAt ButtonPress 4 10 20]
      Sys.oneWindow).trace
      = [(1, { type := WTK_EVENTTYPE_MOUSEDOWN, keyCode := 0, modifiers := 0,
               buttonNumber := 0, location := { x := 10, y := 20 },
               delta := { x := 10, y := 20 } })] ∧
    callbacks (pollEvents Env.sample [XEvent.buttonAt ButtonRelease 7 10 20]
      Sys.oneWindow).trace
      = [(1, { type := WTK_EVENTTYPE_MOUSEUP, keyCode := 0, modifiers := 0,
               buttonNumber := 0, location := { x := 10, y := 20 },
               delta := { x := 10, y := 20 } })] := by
  decide

/-- C15 at its failing input: presses of the native buttons 1, 2 and 3 in the one-window
state reach the callback as mouse-down events with button numbers -4, -3 and -2, not 0, 1
and 2. -/
theorem button_number_off_by_four :
    (callbacks (pollEvents Env.sample
      [XEvent.buttonAt ButtonPress 1 10 20, XEvent.buttonAt ButtonPress 2 10 20,
       XEvent.buttonAt ButtonPress 3 10 20] Sys.oneWindow).trace).map
      (fun p => (p.2.type, p.2.buttonNumber))
      = [(WTK_EVENTTYPE_MOUSEDOWN, -4), (WTK_EVENTTYPE_MOUSEDOWN, -3),
         (WTK_EVENTTYPE_MOUSEDOWN, -2)] := by
  decide


/-! ## The event pump on a whole queue -/

/-- An event for a window that was deleted is outside the scope of the statement about
whole queues, although its X id is still in the association table: after window 2 (X id
200) is deleted, the table still maps 200 to the freed block 2, and a motion event for
200 is not within scope. -/
theorem stale_registration_out_of_scope :
    Sys.staleRegistration.xcontext 200 = some 2 ∧
    Sys.staleRegistration.live = [1] ∧
    inPumpScope Sys.staleRegistration.toWorld
      { XEvent.motionAt 3 4 with window := 200 } = false ∧
    inPumpScope Sys.staleRegistration.toWorld (XEvent.motionAt 3 4) = true := by
  decide

/-- An event of a kind without coordinates is built with location (0, 0). -/
theorem buildEvent_no_coordinate (E : Env) (prev : WtkEvent) (type : WtkEventType)
    (xevent : XEvent)
    (ht : type = WTK_EVENTTYPE_MOUSEENTER ∨ type = WTK_EVENTTYPE_MOUSELEAVE ∨
      type = WTK_EVENTTYPE_WINDOWFOCUSIN ∨ type = WTK_EVENTTYPE_WINDOWFOCUSOUT ∨
      type = WTK_EVENTTYPE_WINDOWRESIZE ∨ type = WTK_EVENTTYPE_WINDOWCLOSE) :
    (buildEvent E prev type xevent).location = { x := 0, y := 0 } := by
  rcases ht with h | h | h | h | h | h <;> subst h <;> simp [buildEvent]

/-- C17: the previous event that `postEvent` keeps for the delta computation is replaced
by the event just posted, after every event the pump posts, of any kind and for any
window; the delta of the pointer-motion event posted next is its position minus the
location of that event.  When the posted event is of a kind without coordinates (mouse-enter,
mouse-leave, focus-in, focus-out, window-resize, window-close) its location is (0, 0), so
the motion event at `(x, y)` that follows carries delta `(x, y)`. -/
theorem position_tracking_is_overwritten (E : Env) (s : Sys) (e1 e2 : XEvent)
    (mid : List XEvent) (w1 w2 : Nat) (t : WtkEventType)
    (hr1 : s.xcontext e1.window = some w1)
    (hd : dispatchType s.wm_delwin e1 = some t)
    (hmid : ∀ x ∈ mid, owedCallback (pollEvents E [e1] s).toWorld x = none)
    (ht2 : e2.type = MotionNotify)
    (hr2 : (pollEvents E [e1] s).xcontext e2.window = some w2) :
    ∃ ev1 ev2,
      callbacks (pollEvents E (e1 :: mid ++ [e2]) s).trace
        = callbacks s.trace ++ [(w1, ev1), (w2, ev2)] ∧
      ev1.type = t ∧
      (pollEvents E [e1] s).previousEvent = ev1 ∧
      ev2.type = WTK_EVENTTYPE_MOUSEMOTION ∧
      ev2.location = { x := e2.x, y := e2.y } ∧
      ev2.delta = { x := e2.x - ev1.location.x, y := e2.y - ev1.location.y } ∧
      (t = WTK_EVENTTYPE_MOUSEENTER ∨ t = WTK_EVENTTYPE_MOUSELEAVE ∨
        t = WTK_EVENTTYPE_WINDOWFOCUSIN ∨ t = WTK_EVENTTYPE_WINDOWFOCUSOUT ∨
        t = WTK_EVENTTYPE_WINDOWRESIZE ∨ t = WTK_EVENTTYPE_WINDOWCLOSE →
        ev1.location = { x := 0, y := 0 } ∧
        (pollEvents E [e1] s).previousEvent.location = { x := 0, y := 0 } ∧
        ev2.delta = { x := e2.x, y := e2.y }) := by
  have h1 := pollEvents_one_posted E e1 s w1 t hr1 hd
  have h2 := pollEvents_one_posted E e2 (pollEvents E [e1] s) w2 _ hr2
    (dispatchType_motion _ e2 ht2)
  have hm2 := buildEvent_motion E (pollEvents E [e1] s).previousEvent e2
  have hq : pollEvents E (e1 :: mid ++ [e2]) s
      = pollEvents E [e2] (pollEvents E [e1] s) := by
    rw [List.cons_append, pollEvents_cons, pollEvents_append,
      pollEvents_skip E mid _ hmid]
  refine ⟨buildEvent E s.previousEvent t e1,
    buildEvent E (pollEvents E [e1] s).previousEvent WTK_EVENTTYPE_MOUSEMOTION e2,
    ?_, buildEvent_type _ _ _ _, h1.2, buildEvent_type _ _ _ _, hm2.1, ?_, ?_⟩
  · rw [hq, h2.1, h1.1]
    simp [callbacks_append, callbacks]
  · rw [hm2.2, h1.2]
  · intro ht
    have hz := buildEvent_no_coordinate E s.previousEvent t e1 ht
    refine ⟨hz, ?_, ?_⟩
    · rw [h1.2, hz]
    · rw [hm2.2, h1.2, hz]
      simp

/-- Witness for C17: in the one-window state with the pointer last seen at (10, 10), an
enter notification followed by motion at (15, 12) gives that motion the delta (15, 12). -/
theorem position_tracking_is_overwritten_witness :
    ∃ ev1 ev2,
      callbacks (pollEvents Env.sample
        (XEvent.blank EnterNotify 100 :: [] ++ [XEvent.motionAt 15 12])
        (pollEvents Env.sample [XEvent.motionAt 10 10] Sys.oneWindow)).trace
        = callbacks (pollEvents Env.sample [XEvent.motionAt 10 10] Sys.oneWindow).trace
          ++ [(1, ev1), (1, ev2)] ∧
      ev1.type = WTK_EVENTTYPE_MOUSEENTER ∧
      ev2.delta = { x := 15, y := 12 } :=
  have h := position_tracking_is_overwritten Env.sample
    (pollEvents Env.sample [XEvent.motionAt 10 10] Sys.oneWindow)
    (XEvent.blank EnterNotify 100) (XEvent.motionAt 15 12) [] 1 1
    WTK_EVENTTYPE_MOUSEENTER
    (by decide) (by decide) (by decide) (by decide) (by decide)
  h.elim fun ev1 h => h.elim fun ev2 h =>
    ⟨ev1, ev2, h.1, h.2.1, (h.2.2.2.2.2.2 (Or.inl rfl)).2.2⟩

end Wtk
